import Mathlib

/-!
Verification development for a weather-data pipeline: a line parser,
a duplicate-suppressing ingestion loader, an annual-statistics aggregator,
and a paginated, filterable query service.

The definitions below are a shallow embedding of the program:
pure functions become Lean functions, session/transaction state becomes
explicit state passing (a committed store plus a pending, flushed-but-not-
committed buffer), machine floats become exact rationals, and fallible code
returns Option/Except.  String primitives (strip, split, ordering) are
modelled on character lists so that everything evaluates inside the kernel.
-/

/-! ## String primitives -/

/-- Python str.strip() whitespace set. -/
def isPyWs (c : Char) : Bool :=
  c = ' ' || c = '\t' || c = '\n' || c = '\r' || c = '\x0b' || c = '\x0c'

/-- Model of Python str.strip(): drop whitespace from both ends. -/
def pyStrip (cs : List Char) : List Char :=
  ((cs.dropWhile isPyWs).reverse.dropWhile isPyWs).reverse

/-- Model of Python str.split("\t"): split on each tab, keeping empty parts
(an empty input yields one empty part). -/
def pySplitTab : List Char → List (List Char)
  | [] => [[]]
  | c :: rest =>
    if c = '\t' then [] :: pySplitTab rest
    else
      match pySplitTab rest with
      | g :: gs => (c :: g) :: gs
      | [] => [[c]]

/-- Lexicographic order on character lists by code point: the order a SQL
ORDER BY on a (ASCII) string column and Python string comparison use. -/
def charListLe : List Char → List Char → Bool
  | [], _ => true
  | _ :: _, [] => false
  | a :: as, b :: bs => if a = b then charListLe as bs else decide (a.toNat < b.toNat)

/-- String order used for the station_id tie-break in query ordering. -/
def strLe (a b : String) : Bool := charListLe a.toList b.toList

/-! ## Dates (model of Python datetime.date as produced by strptime) -/

structure PyDate where
  y : Nat
  m : Nat
  d : Nat
deriving DecidableEq, Repr

/-- Numeric encoding of a date, used only for comparisons (SQL date order). -/
def dateCode (dt : PyDate) : Nat := (dt.y * 100 + dt.m) * 100 + dt.d

def isLeapYear (y : Nat) : Bool := y % 4 = 0 && (y % 100 ≠ 0 || y % 400 = 0)

def daysInMonth (y m : Nat) : Nat :=
  if m = 2 then (if isLeapYear y then 29 else 28)
  else if m = 4 || m = 6 || m = 9 || m = 11 then 30
  else 31

/-- Calendar validity check performed by the datetime constructor. -/
def mkValidDate (y m d : Nat) : Option PyDate :=
  if 1 ≤ y && y ≤ 9999 && 1 ≤ d && d ≤ daysInMonth y m then some ⟨y, m, d⟩ else none

def charVal (c : Char) : Nat := c.toNat - '0'.toNat

/-- Month candidates of strptime's %m directive, in regex alternation order
(1[0-2] | 0[1-9] | [1-9]), each paired with the unconsumed remainder. -/
def monthCands : List Char → List (Nat × List Char)
  | c1 :: c2 :: rest =>
    (if c1 = '1' && ('0' ≤ c2 && c2 ≤ '2') then [(10 + charVal c2, rest)] else []) ++
    (if c1 = '0' && ('1' ≤ c2 && c2 ≤ '9') then [(charVal c2, rest)] else []) ++
    (if '1' ≤ c1 && c1 ≤ '9' then [(charVal c1, c2 :: rest)] else [])
  | [c1] => if '1' ≤ c1 && c1 ≤ '9' then [(charVal c1, [])] else []
  | [] => []

/-- Day candidates of strptime's %d directive, in regex alternation order
(3[01] | [12][0-9] | 0[1-9] | [1-9]). -/
def dayCands : List Char → List (Nat × List Char)
  | c1 :: c2 :: rest =>
    (if c1 = '3' && ('0' ≤ c2 && c2 ≤ '1') then [(30 + charVal c2, rest)] else []) ++
    (if ('1' ≤ c1 && c1 ≤ '2') && c2.isDigit then [(10 * charVal c1 + charVal c2, rest)] else []) ++
    (if c1 = '0' && ('1' ≤ c2 && c2 ≤ '9') then [(charVal c2, rest)] else []) ++
    (if '1' ≤ c1 && c1 ≤ '9' then [(charVal c1, c2 :: rest)] else [])
  | [c1] => if '1' ≤ c1 && c1 ≤ '9' then [(charVal c1, [])] else []
  | [] => []

/-- Model of datetime.strptime(s, "%Y%m%d").date(): a 4-digit year, then %m
and %d matched with regex backtracking over the whole string, then the
calendar validity check of the datetime constructor. -/
def strptimeYmd (s : List Char) : Option PyDate :=
  match s with
  | a :: b :: c :: d :: rest =>
    if a.isDigit && b.isDigit && c.isDigit && d.isDigit then
      let y := ((charVal a * 10 + charVal b) * 10 + charVal c) * 10 + charVal d
      match (monthCands rest).findSome? (fun mc =>
          ((dayCands mc.2).find? (fun dc => dc.2.isEmpty)).map (fun dc => (mc.1, dc.1))) with
      | some (m, dd) => mkValidDate y m dd
      | none => none
    else none
  | _ => none

/-- Model of datetime.strptime(s, "%Y-%m-%d").date(): as strptimeYmd but with
literal dashes between the fields. -/
def strptimeYmdDash (s : List Char) : Option PyDate :=
  match s with
  | a :: b :: c :: d :: h :: rest =>
    if a.isDigit && b.isDigit && c.isDigit && d.isDigit && h = '-' then
      let y := ((charVal a * 10 + charVal b) * 10 + charVal c) * 10 + charVal d
      match (monthCands rest).findSome? (fun mc =>
          match mc.2 with
          | h2 :: r2 =>
            if h2 = '-' then
              ((dayCands r2).find? (fun dc => dc.2.isEmpty)).map (fun dc => (mc.1, dc.1))
            else none
          | [] => none) with
      | some (m, dd) => mkValidDate y m dd
      | none => none
    else none
  | _ => none

/-! ## Model of Python int(str) -/

/-- After the first digit: remaining characters are digits, with single
underscores allowed between digits (Python numeric literal grouping). -/
def digitsCore : List Char → Bool
  | [] => true
  | c :: rest =>
    if c = '_' then
      match rest with
      | [] => false
      | d :: rest2 => d.isDigit && digitsCore rest2
    else c.isDigit && digitsCore rest

/-- A nonempty digit string, underscores allowed between digits. -/
def pyDigits (cs : List Char) : Bool :=
  match cs with
  | [] => false
  | c :: rest => c.isDigit && digitsCore rest

def natOfDigits (cs : List Char) : Nat :=
  cs.foldl (fun acc c => if c = '_' then acc else 10 * acc + charVal c) 0

/-- Model of Python int(s): strip surrounding whitespace, optional sign,
then a digit string (with underscore grouping); None models ValueError. -/
def pyInt (s : List Char) : Option Int :=
  match pyStrip s with
  | '+' :: rest => if pyDigits rest then some ((natOfDigits rest : Nat) : Int) else none
  | '-' :: rest => if pyDigits rest then some (-((natOfDigits rest : Nat) : Int)) else none
  | rest => if pyDigits rest then some ((natOfDigits rest : Nat) : Int) else none

/-! ## Line parser (src/scripts/ingest_weather.py, parse_weather_line) -/

instance {ε α : Type} [DecidableEq ε] [DecidableEq α] : DecidableEq (Except ε α) := fun a b =>
  match a, b with
  | .error e, .error e' =>
    if h : e = e' then .isTrue (by rw [h]) else .isFalse (by intro hh; cases hh; exact h rfl)
  | .ok x, .ok y =>
    if h : x = y then .isTrue (by rw [h]) else .isFalse (by intro hh; cases hh; exact h rfl)
  | .error _, .ok _ => .isFalse (by intro hh; cases hh)
  | .ok _, .error _ => .isFalse (by intro hh; cases hh)

/-- The ValueError variants raised by parse_weather_line. -/
inductive ParseErr where
  | fieldCount (got : Nat)
  | badDate
  | badValue
deriving DecidableEq, Repr

/-- Inner parse_value: int(value_str.strip()), with -9999 translated to
missing (None); the outer Option models the ValueError path. -/
def parse_value (s : List Char) : Option (Option Int) :=
  (pyInt (pyStrip s)).map (fun v => if v = -9999 then none else some v)

structure WeatherRecord where
  station_id : String
  date : PyDate
  max_temp : Option Int
  min_temp : Option Int
  precipitation : Option Int
deriving DecidableEq, Repr

/-- parse_weather_line(line, station_id): strip the line, split on tabs,
require exactly four fields, parse the date with strptime %Y%m%d, and the
three numeric fields with parse_value. -/
def parse_weather_line (line : String) (station_id : String) : Except ParseErr WeatherRecord :=
  let parts := pySplitTab (pyStrip line.toList)
  match parts with
  | [date_str, max_s, min_s, pr_s] =>
    match strptimeYmd date_str with
    | none => .error .badDate
    | some dt =>
      match parse_value max_s with
      | none => .error .badValue
      | some mx =>
        match parse_value min_s with
        | none => .error .badValue
        | some mn =>
          match parse_value pr_s with
          | none => .error .badValue
          | some pr => .ok ⟨station_id, dt, mx, mn, pr⟩
  | _ => .error (.fieldCount parts.length)

/-! ## Ingestion loader (src/scripts/ingest_weather.py)

The storage collaborator is modelled explicitly: `committed` is what has been
committed to the database, `pending` the rows flushed inside the current
transaction but not yet committed.  session.flush() raises IntegrityError if
the (station_id, date) key exists among visible rows (committed or pending);
session.rollback() discards the pending rows; session.commit() moves them
into `committed`. -/

structure Counts where
  inserted : Nat
  skipped : Nat
  failed : Nat
deriving DecidableEq, Repr

structure Session where
  committed : List WeatherRecord
  pending : List WeatherRecord
deriving DecidableEq, Repr

/-- Does a list of rows contain the unique key (station_id, date)? -/
def hasKey (l : List WeatherRecord) (s : String) (dt : PyDate) : Bool :=
  l.any (fun r => decide (r.station_id = s ∧ r.date = dt))

/-- One loop iteration of ingest_weather_file: skip blank lines; on parse
failure count a failed line; on successful parse add+flush, which either
inserts (appends to pending) or raises IntegrityError, upon which the code
rolls back the session (discarding pending rows) and counts a skip. -/
def procLine (station_id : String) (st : Session × Counts) (line : String) : Session × Counts :=
  if pyStrip line.toList = [] then st
  else
    match parse_weather_line line station_id with
    | .error _ => (st.1, { st.2 with failed := st.2.failed + 1 })
    | .ok r =>
      if hasKey (st.1.committed ++ st.1.pending) r.station_id r.date then
        ({ st.1 with pending := [] }, { st.2 with skipped := st.2.skipped + 1 })
      else
        ({ st.1 with pending := st.1.pending ++ [r] }, { st.2 with inserted := st.2.inserted + 1 })

/-- A source file: its base name (stem, which names the station), its lines,
and an optional injected unexpected storage/IO error, raised after the first
`k` lines have been read. -/
structure WeatherFile where
  stem : String
  lines : List String
  errAfter : Option Nat
deriving DecidableEq, Repr

/-- The lines actually yielded before a possible unexpected error. -/
def effectiveLines (f : WeatherFile) : List String :=
  match f.errAfter with
  | none => f.lines
  | some k => f.lines.take k

/-- ingest_weather_file: process the lines the file yields; the Bool records
whether the file raised an unexpected error (which the function re-raises
after the partial per-line processing has mutated the session). -/
def ingest_weather_file (f : WeatherFile) (sess : Session) : Session × Counts × Bool :=
  let st := (effectiveLines f).foldl (procLine f.stem) (sess, ⟨0, 0, 0⟩)
  (st.1, st.2, f.errAfter.isSome)

/-- One iteration of the file loop in ingest_all_weather_data: on normal
completion, add the per-file counts and commit; on an unexpected error, log,
roll back (discarding pending rows) and continue with the next file. -/
def ingestStep (acc : List WeatherRecord × Counts) (f : WeatherFile) :
    List WeatherRecord × Counts :=
  let out := ingest_weather_file f ⟨acc.1, []⟩
  if out.2.2 then
    (out.1.committed, acc.2)
  else
    (out.1.committed ++ out.1.pending,
     ⟨acc.2.inserted + out.2.1.inserted, acc.2.skipped + out.2.1.skipped,
      acc.2.failed + out.2.1.failed⟩)

/-- ingest_all_weather_data over an explicit file list (the directory scan
yields the files in a fixed order), starting from the given committed
storage; returns final storage and run totals. -/
def ingest_all_weather_data (files : List WeatherFile) (db0 : List WeatherRecord) :
    List WeatherRecord × Counts :=
  files.foldl ingestStep (db0, ⟨0, 0, 0⟩)

/-! ## Statistics aggregator (src/scripts/calculate_stats.py) -/

structure WeatherStats where
  station_id : String
  year : Int
  avg_max_temp : Option ℚ
  avg_min_temp : Option ℚ
  total_precipitation : Option ℚ
deriving DecidableEq, Repr

/-- Order on (station_id, year) pairs used by the station-year discovery
query's ORDER BY. -/
def pairLe (a b : String × Nat) : Prop :=
  (strLe a.1 b.1 ∧ a.1 ≠ b.1) ∨ (a.1 = b.1 ∧ a.2 ≤ b.2)

instance : DecidableRel pairLe := fun a b => by unfold pairLe; infer_instance

/-- The distinct (station_id, extract(year, date)) pairs present in storage,
in the discovery query's order. -/
def stationYearPairs (db : List WeatherRecord) : List (String × Nat) :=
  List.insertionSort pairLe (db.map (fun r => (r.station_id, r.date.y))).dedup

/-- The AVG/AVG/SUM aggregation query for one (station, year) group, with the
unit conversions applied: tenths of degrees to degrees (/10) for the two
averages, tenths of millimeters to centimeters (/100) for the total; SQL
aggregates ignore NULLs and return NULL when no non-NULL value exists. -/
def statsFor (db : List WeatherRecord) (s : String) (y : Nat) : Option ℚ × Option ℚ × Option ℚ :=
  let rows : List WeatherRecord := db.filter (fun r => decide (r.station_id = s ∧ r.date.y = y))
  let maxVals : List Int := rows.filterMap (fun r => r.max_temp)
  let minVals : List Int := rows.filterMap (fun r => r.min_temp)
  let prVals : List Int := rows.filterMap (fun r => r.precipitation)
  ((if maxVals = [] then none else some (((maxVals.sum : ℚ) / (maxVals.length : ℚ)) / 10)),
   (if minVals = [] then none else some (((minVals.sum : ℚ) / (minVals.length : ℚ)) / 10)),
   (if prVals = [] then none else some ((prVals.sum : ℚ) / 100)))

/-- Update the first stored statistic matching (station_id, year), if any,
overwriting exactly its three metric fields. -/
def updateFirst (s : String) (y : Int) (v : Option ℚ × Option ℚ × Option ℚ) :
    List WeatherStats → Option (List WeatherStats)
  | [] => none
  | st :: rest =>
    if st.station_id = s ∧ st.year = y then
      some (⟨st.station_id, st.year, v.1, v.2.1, v.2.2⟩ :: rest)
    else (updateFirst s y v rest).map (fun l => st :: l)

/-- Loop body of calculate_weather_stats: compute the aggregate for the pair
and upsert in the session's object graph (overwrite the existing row's metric
fields, or session.add a new row). With autoflush off this is an in-memory
write; database constraints are only evaluated when the session commits. -/
def upsertStat (db : List WeatherRecord) (acc : List WeatherStats) (k : String × Nat) :
    List WeatherStats :=
  let v := statsFor db k.1 k.2
  match updateFirst k.1 (k.2 : Int) v acc with
  | some l => l
  | none => acc ++ [⟨k.1, (k.2 : Int), v.1, v.2.1, v.2.2⟩]

/-- The ck_year_range CHECK constraint of the weather_stats table:
year >= 1900 AND year <= 2100. -/
def ckYearRange (y : Int) : Bool := decide (1900 ≤ y ∧ y ≤ 2100)

/-- Session state of the statistics run: the storage as of the last commit,
the working state including uncommitted writes, whether an uncommitted INSERT
violates ck_year_range, and the processed counter (inserted + updated). -/
structure StatsRun where
  committed : List WeatherStats
  current : List WeatherStats
  badInsert : Bool
  processed : Nat

/-- Outcome of the statistics run: whether it raised an uncaught
IntegrityError (get_session then rolls back and re-raises), and the stat rows
durably in storage afterwards. -/
structure StatsResult where
  raised : Bool
  stored : List WeatherStats

/-- The per-pair loop of calculate_weather_stats with its batch commits: every
100 processed pairs, and once more at the end, session.commit() flushes the
batch; the INSERT of a stat row whose year violates ck_year_range then raises
IntegrityError, which nothing catches, so the run aborts and the rollback in
get_session discards the uncommitted batch. An UPDATE of an existing stat row
keeps its year, and a stored row's year already passed the CHECK on its own
INSERT, so only the batch's inserted rows can violate the year-range CHECK. -/
def runStats (db : List WeatherRecord) :
    List (String × Nat) → StatsRun → StatsResult
  | [], st =>
    if st.badInsert then ⟨true, st.committed⟩ else ⟨false, st.current⟩
  | k :: ks, st =>
    let ins := (updateFirst k.1 (k.2 : Int) (statsFor db k.1 k.2) st.current).isNone
    let current' := upsertStat db st.current k
    let bad' := st.badInsert || (ins && !ckYearRange (k.2 : Int))
    let processed' := st.processed + 1
    if processed' % 100 == 0 then
      if bad' then ⟨true, st.committed⟩
      else runStats db ks ⟨current', current', false, processed'⟩
    else runStats db ks ⟨st.committed, current', bad', processed'⟩

/-- calculate_weather_stats: recompute and upsert the annual statistic of
every (station, year) pair present in Observation storage, committing in
batches, subject to the weather_stats ck_year_range CHECK. -/
def calculate_weather_stats (db : List WeatherRecord) (stats0 : List WeatherStats) :
    StatsResult :=
  runStats db (stationYearPairs db) ⟨stats0, stats0, false, 0⟩

/-- Lookup of the stored statistic for a (station, year) pair. -/
def statLookup (l : List WeatherStats) (s : String) (y : Int) : Option WeatherStats :=
  l.find? (fun st => decide (st.station_id = s ∧ st.year = y))

/-! ## Query service (src/api/weather.py) -/

namespace Config

def DEFAULT_PAGE_SIZE : Int := 100

def MAX_PAGE_SIZE : Int := 1000

end Config

/-- get_pagination_params: missing or unparseable query values fall back to
the defaults (Flask's type=int behaviour); page below 1 is coerced to 1,
page_size below 1 to the default and above the maximum to the maximum. -/
def get_pagination_params (page0 pageSize0 : Option Int) : Int × Int :=
  let page := page0.getD 1
  let page_size := pageSize0.getD Config.DEFAULT_PAGE_SIZE
  let page := if page < 1 then 1 else page
  let page_size := if page_size < 1 then Config.DEFAULT_PAGE_SIZE else page_size
  let page_size := if page_size > Config.MAX_PAGE_SIZE then Config.MAX_PAGE_SIZE else page_size
  (page, page_size)

/-- parse_date of the API layer: strptime with format %Y-%m-%d. -/
def parse_date (s : String) : Option PyDate := strptimeYmdDash s.toList

structure Paged (α : Type) where
  data : List α
  page : Int
  page_size : Int
  total_records : Nat
  total_pages : Int
deriving DecidableEq, Repr

/-- create_paginated_response: the pagination block; total_pages is the
ceiling division (total_count + page_size - 1) // page_size. -/
def create_paginated_response {α : Type} (records : List α) (total_count : Nat)
    (page page_size : Int) : Paged α :=
  ⟨records, page, page_size, total_count, ((total_count : Int) + page_size - 1) / page_size⟩

/-- WeatherRecord.to_dict: temperatures and precipitation divided by 10
(tenths to display units), NULL stays NULL. -/
structure WeatherRow where
  station_id : String
  date : PyDate
  max_temp : Option ℚ
  min_temp : Option ℚ
  precipitation : Option ℚ
deriving DecidableEq, Repr

def weatherRecordToDict (r : WeatherRecord) : WeatherRow :=
  ⟨r.station_id, r.date, r.max_temp.map (fun v => (v : ℚ) / 10),
   r.min_temp.map (fun v => (v : ℚ) / 10), r.precipitation.map (fun v => (v : ℚ) / 10)⟩

/-- Python round-half-to-even on an exact rational. -/
def roundHalfEven (y : ℚ) : ℤ :=
  if y - ⌊y⌋ = 1 / 2 then (if Even ⌊y⌋ then ⌊y⌋ else ⌊y⌋ + 1) else round y

/-- Model of Python round(x, 2). -/
def pyRound2 (x : ℚ) : ℚ := ((roundHalfEven (x * 100) : ℤ) : ℚ) / 100

/-- WeatherStats.to_dict: values rounded to two decimals, NULL stays NULL. -/
structure StatsRow where
  station_id : String
  year : Int
  avg_max_temp : Option ℚ
  avg_min_temp : Option ℚ
  total_precipitation : Option ℚ
deriving DecidableEq, Repr

def weatherStatsToDict (st : WeatherStats) : StatsRow :=
  ⟨st.station_id, st.year, st.avg_max_temp.map pyRound2, st.avg_min_temp.map pyRound2,
   st.total_precipitation.map pyRound2⟩

/-- Result ordering of the observation listing: ORDER BY date, station_id. -/
def wle (a b : WeatherRecord) : Prop :=
  dateCode a.date < dateCode b.date ∨
    (dateCode a.date = dateCode b.date ∧ strLe a.station_id b.station_id = true)

instance : DecidableRel wle := fun a b => by unfold wle; infer_instance

/-- Result ordering of the statistics listing: ORDER BY year, station_id. -/
def sle (a b : WeatherStats) : Prop :=
  a.year < b.year ∨ (a.year = b.year ∧ strLe a.station_id b.station_id = true)

instance : DecidableRel sle := fun a b => by unfold sle; infer_instance

/-- Query parameters of the observation listing; None is an absent parameter
(or one Flask failed to convert, for the two int parameters). -/
structure WeatherParams where
  station_id : Option String := none
  date : Option String := none
  start_date : Option String := none
  end_date : Option String := none
  page : Option Int := none
  page_size : Option Int := none
deriving DecidableEq, Repr

/-- One optional date filter of WeatherList.get: absent or empty parameters
are skipped (if date_str: is falsy), otherwise the date is parsed — a
ValueError becomes the 400 response — and the filter applied. -/
def applyDateParam (q : List WeatherRecord) (o : Option String)
    (keep : PyDate → WeatherRecord → Bool) : Except String (List WeatherRecord) :=
  match o with
  | none => .ok q
  | some ds =>
    if ds = "" then .ok q
    else
      match parse_date ds with
      | some dt => .ok (q.filter (keep dt))
      | none => .error "Date must be in YYYY-MM-DD format"

/-- WeatherList.get: coerce pagination, apply station and date filters (with
date validation), order by (date, station_id), count, slice, convert. -/
def weather_list_get (db : List WeatherRecord) (p : WeatherParams) :
    Except String (Paged WeatherRow) :=
  let pp := get_pagination_params p.page p.page_size
  let q1 := match p.station_id with
    | some s => if s = "" then db else db.filter (fun r => decide (r.station_id = s))
    | none => db
  (applyDateParam q1 p.date (fun dt r => decide (r.date = dt))).bind (fun q2 =>
  (applyDateParam q2 p.start_date (fun dt r => decide (dateCode dt ≤ dateCode r.date))).bind
    (fun q3 =>
  (applyDateParam q3 p.end_date (fun dt r => decide (dateCode r.date ≤ dateCode dt))).bind
    (fun q4 =>
    let sortedQ := List.insertionSort wle q4
    let offset := ((pp.1 - 1) * pp.2).toNat
    let records := (sortedQ.drop offset).take pp.2.toNat
    .ok (create_paginated_response (records.map weatherRecordToDict) sortedQ.length pp.1 pp.2))))

/-- Query parameters of the statistics listing. -/
structure StatsParams where
  station_id : Option String := none
  year : Option Int := none
  start_year : Option Int := none
  end_year : Option Int := none
  page : Option Int := none
  page_size : Option Int := none
deriving DecidableEq, Repr

/-- WeatherStatsList.get: same pagination policy; the three year filters are
guarded by truthiness (if year:), so a 0 value disables the filter; order by
(year, station_id). -/
def weather_stats_list_get (db : List WeatherStats) (p : StatsParams) : Paged StatsRow :=
  let pp := get_pagination_params p.page p.page_size
  let q1 := match p.station_id with
    | some s => if s = "" then db else db.filter (fun st => decide (st.station_id = s))
    | none => db
  let q2 := match p.year with
    | some v => if v ≠ 0 then q1.filter (fun st => decide (st.year = v)) else q1
    | none => q1
  let q3 := match p.start_year with
    | some v => if v ≠ 0 then q2.filter (fun st => decide (v ≤ st.year)) else q2
    | none => q2
  let q4 := match p.end_year with
    | some v => if v ≠ 0 then q3.filter (fun st => decide (st.year ≤ v)) else q3
    | none => q3
  let sortedQ := List.insertionSort sle q4
  let offset := ((pp.1 - 1) * pp.2).toNat
  let records := (sortedQ.drop offset).take pp.2.toNat
  create_paginated_response (records.map weatherStatsToDict) sortedQ.length pp.1 pp.2

/-! ## Derived definitions used in the statements of the theorems -/

/-- The records a list of lines parses to for a given station. -/
def recsOf (station_id : String) (lines : List String) : List WeatherRecord :=
  lines.filterMap (fun l => (parse_weather_line l station_id).toOption)

/-- The lines counted as failed: non-blank and unparseable. -/
def failsOf (station_id : String) (lines : List String) : Nat :=
  (lines.filter (fun l =>
    !(pyStrip l.toList).isEmpty && ((parse_weather_line l station_id).toOption).isNone)).length

/-- The records a file's yielded lines parse to (in order). -/
def parsedRecords (f : WeatherFile) : List WeatherRecord :=
  recsOf f.stem (effectiveLines f)

/-- The lines of a file counted as failed: non-blank and unparseable. -/
def failCount (f : WeatherFile) : Nat :=
  failsOf f.stem (effectiveLines f)

/-- A date parameter that the handler accepts without a validation error:
absent, empty (truthiness skips it), or parseable. -/
def dateParamOk (o : Option String) : Bool :=
  match o with
  | none => true
  | some s => s = "" || (parse_date s).isSome

def wParamsValid (p : WeatherParams) : Bool :=
  dateParamOk p.date && dateParamOk p.start_date && dateParamOk p.end_date

/-- The station filter as a predicate (absent or empty string: no filter). -/
def stationPredOn {α : Type} (get : α → String) (o : Option String) (x : α) : Bool :=
  match o with
  | some s => if s = "" then true else decide (get x = s)
  | none => true

/-- An optional, validated date filter as a predicate. -/
def datePred (o : Option String) (keep : PyDate → WeatherRecord → Bool) (r : WeatherRecord) :
    Bool :=
  match o with
  | some ds =>
    if ds = "" then true
    else
      match parse_date ds with
      | some dt => keep dt r
      | none => true
  | none => true

/-- The full filter of WeatherList.get, as the chain of its four optional
filters (meaningful when the parameters are valid). -/
def wFilter (db : List WeatherRecord) (p : WeatherParams) : List WeatherRecord :=
  (((db.filter (stationPredOn (fun x => x.station_id) p.station_id)).filter
      (datePred p.date (fun dt x => decide (x.date = dt)))).filter
      (datePred p.start_date (fun dt x => decide (dateCode dt ≤ dateCode x.date)))).filter
      (datePred p.end_date (fun dt x => decide (dateCode x.date ≤ dateCode dt)))

/-- An optional, truthiness-guarded year filter as a predicate. -/
def yearPred (o : Option Int) (keep : Int → WeatherStats → Bool) (st : WeatherStats) : Bool :=
  match o with
  | some v => if v ≠ 0 then keep v st else true
  | none => true

/-- The full filter of WeatherStatsList.get, as the chain of its four
optional filters. -/
def sFilter (db : List WeatherStats) (p : StatsParams) : List WeatherStats :=
  (((db.filter (stationPredOn (fun x => x.station_id) p.station_id)).filter
      (yearPred p.year (fun v x => decide (x.year = v)))).filter
      (yearPred p.start_year (fun v x => decide (v ≤ x.year)))).filter
      (yearPred p.end_year (fun v x => decide (x.year ≤ v)))

/-- Mean of a list of rationals, as the specification states it. -/
def listMean (l : List ℚ) : ℚ := l.sum / (l.length : ℚ)

/-- The natural key of an Observation. -/
def recKey (r : WeatherRecord) : String × PyDate := (r.station_id, r.date)

def keysOf (l : List WeatherRecord) : List (String × PyDate) := l.map recKey

/-- The natural key of an AnnualStatistic. -/
def statKey (s : WeatherStats) : String × Int := (s.station_id, s.year)

/-- The records a run over the given files commits when starting from empty
storage: everything parseable from files that complete without an error. -/
def committedRecords (files : List WeatherFile) : List WeatherRecord :=
  (files.map (fun f => if f.errAfter.isSome then [] else parsedRecords f)).flatten

/-- Run total of inserted records (files that raise contribute nothing). -/
def insertedTotal (files : List WeatherFile) : Nat :=
  (files.map (fun f => if f.errAfter.isSome then 0 else (parsedRecords f).length)).sum

/-- Run total of failed lines (files that raise contribute nothing). -/
def failedTotal (files : List WeatherFile) : Nat :=
  (files.map (fun f => if f.errAfter.isSome then 0 else failCount f)).sum

/-- Display-row order corresponding to wle. -/
def wRowLe (a b : WeatherRow) : Prop :=
  dateCode a.date < dateCode b.date ∨
    (dateCode a.date = dateCode b.date ∧ strLe a.station_id b.station_id = true)

instance : DecidableRel wRowLe := fun a b => by unfold wRowLe; infer_instance

/-- Display-row order corresponding to sle. -/
def sRowLe (a b : StatsRow) : Prop :=
  a.year < b.year ∨ (a.year = b.year ∧ strLe a.station_id b.station_id = true)

instance : DecidableRel sRowLe := fun a b => by unfold sRowLe; infer_instance

/-- The full, ordered, display-converted Observation result set of a filter
set: what concatenating all pages must reproduce. -/
def wFullList (db : List WeatherRecord) (p : WeatherParams) : List WeatherRow :=
  (List.insertionSort wle (wFilter db p)).map weatherRecordToDict

/-- The full, ordered, display-converted AnnualStatistic result set. -/
def sFullList (db : List WeatherStats) (p : StatsParams) : List StatsRow :=
  (List.insertionSort sle (sFilter db p)).map weatherStatsToDict

/-- The slice of the full result list shown on page n+1 at a page size. -/
def pageSlice {α : Type} (l : List α) (n sz : Nat) : List α :=
  (l.drop (n * sz)).take sz

/-- Number of pages: ceiling division of the record total by the page size. -/
def totalPagesNat (n sz : Nat) : Nat := (n + sz - 1) / sz

/-- Sample stored Observations used to exercise the pagination property. -/
def wdb7 : List WeatherRecord :=
  [⟨"USC00110072", ⟨1985, 1, 2⟩, some 106, some (-61), some 0⟩,
   ⟨"USC00110072", ⟨1985, 1, 1⟩, some 289, none, some 25⟩,
   ⟨"USC00110187", ⟨1985, 1, 1⟩, some 50, some 0, none⟩]

/-- Sample stored AnnualStatistics used to exercise the pagination property. -/
def sdb7 : List WeatherStats :=
  [⟨"USC00110072", 1985, some (197/10), none, some (1/4)⟩,
   ⟨"USC00110072", 1986, none, none, none⟩]

/-- Sample Observation query parameters (a station filter, page size 2). -/
def wp7 : WeatherParams := { station_id := some "USC00110072", page_size := some 2 }

/-- Sample AnnualStatistics query parameters (page size 1). -/
def sq7 : StatsParams := { page_size := some 1 }

/-! ## Basic lemmas about the ingestion loop -/

theorem procLine_committed (station_id : String) (st : Session × Counts) (line : String) :
    (procLine station_id st line).1.committed = st.1.committed := by
  unfold procLine
  split
  · rfl
  · split
    · rfl
    · split <;> rfl

theorem foldl_procLine_committed (station_id : String) :
    ∀ (lines : List String) (st : Session × Counts),
      ((lines.foldl (procLine station_id) st).1.committed = st.1.committed)
  | [], st => rfl
  | l :: ls, st => by
    rw [List.foldl_cons, foldl_procLine_committed station_id ls]
    exact procLine_committed station_id st l

theorem ingest_weather_file_committed (f : WeatherFile) (sess : Session) :
    (ingest_weather_file f sess).1.committed = sess.committed := by
  unfold ingest_weather_file
  exact foldl_procLine_committed f.stem (effectiveLines f) (sess, ⟨0, 0, 0⟩)

theorem ingestStep_raised (acc : List WeatherRecord × Counts) (f : WeatherFile)
    (hf : f.errAfter.isSome = true) : ingestStep acc f = acc := by
  have hr : (ingest_weather_file f ⟨acc.1, []⟩).2.2 = true := hf
  simp only [ingestStep, hr, if_true, ingest_weather_file_committed]

/-- C1 (counterexample): a file whose single line is successfully parsed and
inserted (the per-file counter reports one insertion) and which then raises
an unexpected storage/IO error leaves storage empty after the run: the
record inserted earlier in that file does not remain committed. -/
theorem c1_counterexample :
    (ingest_weather_file ⟨"S1", ["19850101\t10\t5\t0"], some 1⟩ ⟨[], []⟩).2.1.inserted = 1 ∧
    (ingest_weather_file ⟨"S1", ["19850101\t10\t5\t0"], some 1⟩ ⟨[], []⟩).1.pending ≠ [] ∧
    ingest_all_weather_data [⟨"S1", ["19850101\t10\t5\t0"], some 1⟩] [] =
      ([], ⟨0, 0, 0⟩) := by
  refine ⟨by decide, by decide, by decide⟩

/-- C1 (amended): durability is per file, not per record: a file that raises
an unexpected storage/IO error contributes nothing to storage or to the run
totals — its own flushed-but-uncommitted inserts are rolled back — while
records committed by other (earlier or later) files are exactly those of a
run without the failing file; in particular the run continues with the
remaining files. -/
theorem c1_file_granular_durability (pre post : List WeatherFile) (f : WeatherFile)
    (db0 : List WeatherRecord) (hf : f.errAfter.isSome = true) :
    ingest_all_weather_data (pre ++ f :: post) db0 =
      ingest_all_weather_data (pre ++ post) db0 := by
  unfold ingest_all_weather_data
  rw [List.foldl_append, List.foldl_append, List.foldl_cons, ingestStep_raised _ f hf]

theorem c1_witness :
    ((⟨"S1", ["19850101\t10\t5\t0"], some 1⟩ : WeatherFile).errAfter.isSome = true) ∧
    ingest_all_weather_data
        ([⟨"S0", ["19840101\t3\t2\t1"], none⟩] ++
          (⟨"S1", ["19850101\t10\t5\t0"], some 1⟩ : WeatherFile) ::
            [⟨"S2", ["19860101\t4\t3\t2"], none⟩]) [] =
      ingest_all_weather_data
        ([⟨"S0", ["19840101\t3\t2\t1"], none⟩] ++ [⟨"S2", ["19860101\t4\t3\t2"], none⟩]) [] :=
  ⟨rfl, c1_file_granular_durability [⟨"S0", ["19840101\t3\t2\t1"], none⟩]
    [⟨"S2", ["19860101\t4\t3\t2"], none⟩] ⟨"S1", ["19850101\t10\t5\t0"], some 1⟩ [] rfl⟩

/-! ## C4: duplicate persistence attempts -/

theorem parse_ok_not_blank {line station_id : String} {r : WeatherRecord}
    (hp : parse_weather_line line station_id = .ok r) : pyStrip line.toList ≠ [] := by
  intro hb
  rw [parse_weather_line, hb] at hp
  exact Except.noConfusion hp

/-- C4: when the loader attempts to persist a parsed Observation whose
(station, date) key already exists in committed storage, the attempt is
counted as skipped (inserted and failed are unchanged), no error is raised
(procLine is total), and committed storage — in particular the existing
record — is left unchanged. -/
theorem c4_duplicate_skipped (sess : Session) (c : Counts) (line station_id : String)
    (r : WeatherRecord) (hp : parse_weather_line line station_id = .ok r)
    (hk : hasKey sess.committed r.station_id r.date = true) :
    (procLine station_id (sess, c) line).1.committed = sess.committed ∧
    (procLine station_id (sess, c) line).2.skipped = c.skipped + 1 ∧
    (procLine station_id (sess, c) line).2.inserted = c.inserted ∧
    (procLine station_id (sess, c) line).2.failed = c.failed := by
  have hb := parse_ok_not_blank hp
  have hdup : hasKey (sess.committed ++ sess.pending) r.station_id r.date = true := by
    unfold hasKey at hk ⊢
    rw [List.any_append, hk, Bool.true_or]
  have hb' : pyStrip line.data ≠ [] := hb
  unfold procLine
  simp [if_neg hb', hp, hdup]

theorem c4_witness :
    (parse_weather_line "19850101\t10\t5\t0" "S1" =
      .ok ⟨"S1", ⟨1985, 1, 1⟩, some 10, some 5, some 0⟩) ∧
    (hasKey [⟨"S1", ⟨1985, 1, 1⟩, some 7, some 3, some 2⟩]
      (⟨"S1", ⟨1985, 1, 1⟩, some 10, some 5, some 0⟩ : WeatherRecord).station_id
      (⟨"S1", ⟨1985, 1, 1⟩, some 10, some 5, some 0⟩ : WeatherRecord).date = true) ∧
    (procLine "S1" (⟨[⟨"S1", ⟨1985, 1, 1⟩, some 7, some 3, some 2⟩], []⟩, ⟨2, 3, 4⟩)
        "19850101\t10\t5\t0").1.committed = [⟨"S1", ⟨1985, 1, 1⟩, some 7, some 3, some 2⟩] ∧
    (procLine "S1" (⟨[⟨"S1", ⟨1985, 1, 1⟩, some 7, some 3, some 2⟩], []⟩, ⟨2, 3, 4⟩)
        "19850101\t10\t5\t0").2.skipped = 3 + 1 :=
  ⟨by decide, by decide,
   (c4_duplicate_skipped ⟨[⟨"S1", ⟨1985, 1, 1⟩, some 7, some 3, some 2⟩], []⟩ ⟨2, 3, 4⟩
      "19850101\t10\t5\t0" "S1" ⟨"S1", ⟨1985, 1, 1⟩, some 10, some 5, some 0⟩
      (by decide) (by decide)).1,
   (c4_duplicate_skipped ⟨[⟨"S1", ⟨1985, 1, 1⟩, some 7, some 3, some 2⟩], []⟩ ⟨2, 3, 4⟩
      "19850101\t10\t5\t0" "S1" ⟨"S1", ⟨1985, 1, 1⟩, some 10, some 5, some 0⟩
      (by decide) (by decide)).2.1⟩

/-! ## C5: field-count gate of the line parser -/

/-- C5 (counterexample): a line whose stripped form has exactly four
tab-delimited fields on which the parser nevertheless fails (bad date), and
a line with four whitespace-delimited fields that the parser rejects with a
field count of 1, because only tabs delimit fields. -/
theorem c5_counterexample :
    (pySplitTab (pyStrip ("a\tb\tc\td").toList)).length = 4 ∧
    parse_weather_line "a\tb\tc\td" "S" = .error .badDate ∧
    parse_weather_line "19850101 -22 -128 94" "S" = .error (.fieldCount 1) := by
  refine ⟨by decide, by decide, by decide⟩

/-- C5 (amended): the parser fails with a MalformedRecord error identifying
the found field count exactly when the stripped line does not split on tab
characters into four fields; with exactly four tab-delimited fields no
field-count error is raised (though date or numeric parsing may still
fail). -/
theorem c5_field_count_gate (line station_id : String) :
    ((pySplitTab (pyStrip line.toList)).length ≠ 4 →
      parse_weather_line line station_id =
        .error (.fieldCount (pySplitTab (pyStrip line.toList)).length)) ∧
    (∀ n : Nat, parse_weather_line line station_id = .error (.fieldCount n) →
      n = (pySplitTab (pyStrip line.toList)).length ∧
        (pySplitTab (pyStrip line.toList)).length ≠ 4) := by
  unfold parse_weather_line
  rcases hp : pySplitTab (pyStrip line.toList) with _ | ⟨a, _ | ⟨b, _ | ⟨c, _ | ⟨d, _ | ⟨e, rest⟩⟩⟩⟩⟩
  · refine ⟨fun _ => rfl, fun n h => ?_⟩
    simp at h ⊢
    omega
  · refine ⟨fun _ => rfl, fun n h => ?_⟩
    simp at h ⊢
    omega
  · refine ⟨fun _ => rfl, fun n h => ?_⟩
    simp at h ⊢
    omega
  · refine ⟨fun _ => rfl, fun n h => ?_⟩
    simp at h ⊢
    omega
  · refine ⟨fun h4 => absurd rfl h4, fun n h => ?_⟩
    exfalso
    rcases hd : strptimeYmd a with _ | dt <;>
      rcases hb2 : parse_value b with _ | mx <;>
      rcases hc2 : parse_value c with _ | mn <;>
      rcases hd2 : parse_value d with _ | pr <;>
      simp [hd, hb2, hc2, hd2] at h
  · refine ⟨fun _ => rfl, fun n h => ?_⟩
    simp at h ⊢
    omega

theorem c5_witness :
    ((pySplitTab (pyStrip ("only\ttwo").toList)).length ≠ 4 ∧
      parse_weather_line "only\ttwo" "S" =
        .error (.fieldCount (pySplitTab (pyStrip ("only\ttwo").toList)).length)) :=
  ⟨by decide, (c5_field_count_gate "only\ttwo" "S").1 (by decide)⟩

/-! ## C6: numeric field parsing -/

/-- C6: each numeric field is parsed with Python int() on the
whitespace-trimmed field; -9999 becomes missing (None), any other integer is
kept exactly, non-integer text is a ValueError; and the two concrete lines
from the specification parse as stated. -/
theorem c6_numeric_sentinel :
    (∀ (s : List Char) (v : Int), pyInt (pyStrip s) = some v → v ≠ -9999 →
        parse_value s = some (some v)) ∧
    (∀ s : List Char, pyInt (pyStrip s) = some (-9999) → parse_value s = some none) ∧
    (∀ s : List Char, pyInt (pyStrip s) = none → parse_value s = none) ∧
    parse_weather_line "19850101\t  -22\t -128\t   94" "USC00110072" =
      .ok ⟨"USC00110072", ⟨1985, 1, 1⟩, some (-22), some (-128), some 94⟩ ∧
    parse_weather_line "19850103\t-9999\t-9999\t-9999" "USC00110072" =
      .ok ⟨"USC00110072", ⟨1985, 1, 3⟩, none, none, none⟩ := by
  refine ⟨?_, ?_, ?_, by decide, by decide⟩
  · intro s v hv hne
    unfold parse_value
    rw [hv]
    simp [hne]
  · intro s hv
    unfold parse_value
    rw [hv]
    simp
  · intro s hv
    unfold parse_value
    rw [hv]
    rfl

theorem c6_witness :
    (pyInt (pyStrip ("  -22").toList) = some (-22) ∧ (-22 : Int) ≠ -9999 ∧
      parse_value ("  -22").toList = some (some (-22))) ∧
    (pyInt (pyStrip ("-9999").toList) = some (-9999) ∧
      parse_value ("-9999").toList = some none) ∧
    (pyInt (pyStrip ("x7").toList) = none ∧ parse_value ("x7").toList = none) :=
  ⟨⟨by decide, by decide,
      c6_numeric_sentinel.1 ("  -22").toList (-22) (by decide) (by decide)⟩,
   ⟨by decide, c6_numeric_sentinel.2.1 ("-9999").toList (by decide)⟩,
   ⟨by decide, c6_numeric_sentinel.2.2.1 ("x7").toList (by decide)⟩⟩

/-! ## C8: pagination parameter coercion -/

/-- C8: page defaults to 1 and values below 1 are coerced to 1 (values of 1
or more are kept); page_size defaults to the configured default, values
below 1 are coerced to the default and values above the configured maximum
are capped to the maximum; no input is rejected (the function is total). -/
theorem c8_pagination_coercion :
    (∀ s : Option Int, (get_pagination_params none s).1 = 1) ∧
    (∀ p : Option Int, (get_pagination_params p none).2 = Config.DEFAULT_PAGE_SIZE) ∧
    (∀ (pv : Int) (s : Option Int), pv < 1 → (get_pagination_params (some pv) s).1 = 1) ∧
    (∀ (pv : Int) (s : Option Int), 1 ≤ pv → (get_pagination_params (some pv) s).1 = pv) ∧
    (∀ (p : Option Int) (sv : Int), sv < 1 →
        (get_pagination_params p (some sv)).2 = Config.DEFAULT_PAGE_SIZE) ∧
    (∀ (p : Option Int) (sv : Int), Config.MAX_PAGE_SIZE < sv →
        (get_pagination_params p (some sv)).2 = Config.MAX_PAGE_SIZE) := by
  refine ⟨?_, ?_, ?_, ?_, ?_, ?_⟩ <;> intros <;>
    unfold get_pagination_params Config.DEFAULT_PAGE_SIZE Config.MAX_PAGE_SIZE at * <;>
    simp only [Option.getD_none, Option.getD_some] <;>
    split_ifs <;> first | rfl | omega

theorem c8_witness :
    ((0 : Int) < 1 ∧ (get_pagination_params (some 0) (some 5000)).1 = 1) ∧
    (Config.MAX_PAGE_SIZE < (5000 : Int) ∧
      (get_pagination_params (some 0) (some 5000)).2 = Config.MAX_PAGE_SIZE) ∧
    ((-3 : Int) < 1 ∧
      (get_pagination_params (some 7) (some (-3))).2 = Config.DEFAULT_PAGE_SIZE) :=
  ⟨⟨by decide, c8_pagination_coercion.2.2.1 0 (some 5000) (by decide)⟩,
   ⟨by decide, c8_pagination_coercion.2.2.2.2.2 (some 0) 5000 (by decide)⟩,
   ⟨by decide, c8_pagination_coercion.2.2.2.2.1 (some 7) (-3) (by decide)⟩⟩

/-! ## C10: zero year values disable the statistics filters -/

/-- C10: in WeatherStatsList.get the year, start_year and end_year filters
are guarded by truthiness, so a value of 0 behaves exactly as an absent
parameter — no year constraint is applied and all otherwise-matching rows
are returned, rather than an empty result. -/
theorem c10_zero_year_filters_absent (db : List WeatherStats) (st : Option String)
    (yv sy ey pg ps : Option Int) :
    weather_stats_list_get db ⟨st, some 0, sy, ey, pg, ps⟩ =
      weather_stats_list_get db ⟨st, none, sy, ey, pg, ps⟩ ∧
    weather_stats_list_get db ⟨st, yv, some 0, ey, pg, ps⟩ =
      weather_stats_list_get db ⟨st, yv, none, ey, pg, ps⟩ ∧
    weather_stats_list_get db ⟨st, yv, sy, some 0, pg, ps⟩ =
      weather_stats_list_get db ⟨st, yv, sy, none, pg, ps⟩ := by
  refine ⟨?_, ?_, ?_⟩ <;> rfl

/-! ## C3: aggregation correctness -/

theorem updateFirst_some_lookup_other (s' : String) (y' : Int)
    (v : Option ℚ × Option ℚ × Option ℚ) (s : String) (y : Int)
    (hne : ¬(s' = s ∧ y' = y)) :
    ∀ (acc l : List WeatherStats), updateFirst s' y' v acc = some l →
      statLookup l s y = statLookup acc s y
  | [], l => by intro h; exact Option.noConfusion h
  | st :: rest, l => by
    intro h
    unfold updateFirst at h
    by_cases hc : st.station_id = s' ∧ st.year = y'
    · rw [if_pos hc] at h
      cases h
      unfold statLookup List.find?
      have hpred : decide (st.station_id = s ∧ st.year = y) = false := by
        simp only [decide_eq_false_iff_not]
        intro hx
        exact hne ⟨hc.1 ▸ hx.1, hc.2 ▸ hx.2⟩
      rw [hpred]
    · rw [if_neg hc] at h
      rcases ho : updateFirst s' y' v rest with _ | l'
      · rw [ho] at h; exact Option.noConfusion h
      · rw [ho] at h
        cases h
        unfold statLookup List.find?
        cases hpred : decide (st.station_id = s ∧ st.year = y)
        · exact updateFirst_some_lookup_other s' y' v s y hne rest l' ho
        · rfl

theorem updateFirst_some_lookup_hit (s' : String) (y' : Int)
    (v : Option ℚ × Option ℚ × Option ℚ) :
    ∀ (acc l : List WeatherStats), updateFirst s' y' v acc = some l →
      statLookup l s' y' = some ⟨s', y', v.1, v.2.1, v.2.2⟩
  | [], l => by intro h; exact Option.noConfusion h
  | st :: rest, l => by
    intro h
    unfold updateFirst at h
    by_cases hc : st.station_id = s' ∧ st.year = y'
    · rw [if_pos hc] at h
      cases h
      unfold statLookup List.find?
      rw [decide_eq_true (by exact ⟨hc.1, hc.2⟩)]
      simp [hc.1, hc.2]
    · rw [if_neg hc] at h
      rcases ho : updateFirst s' y' v rest with _ | l'
      · rw [ho] at h; exact Option.noConfusion h
      · rw [ho] at h
        cases h
        unfold statLookup List.find?
        rw [decide_eq_false hc]
        exact updateFirst_some_lookup_hit s' y' v rest l' ho

theorem updateFirst_none_lookup (s' : String) (y' : Int)
    (v : Option ℚ × Option ℚ × Option ℚ) :
    ∀ acc : List WeatherStats, updateFirst s' y' v acc = none →
      statLookup acc s' y' = none
  | [] => by intro _; rfl
  | st :: rest => by
    intro h
    unfold updateFirst at h
    by_cases hc : st.station_id = s' ∧ st.year = y'
    · rw [if_pos hc] at h; exact Option.noConfusion h
    · rw [if_neg hc] at h
      rcases ho : updateFirst s' y' v rest with _ | l'
      · unfold statLookup List.find?
        rw [decide_eq_false hc]
        exact updateFirst_none_lookup s' y' v rest ho
      · rw [ho] at h; exact Option.noConfusion h

theorem upsertStat_lookup_hit (db : List WeatherRecord) (acc : List WeatherStats)
    (k : String × Nat) :
    statLookup (upsertStat db acc k) k.1 (k.2 : Int) =
      some ⟨k.1, (k.2 : Int), (statsFor db k.1 k.2).1, (statsFor db k.1 k.2).2.1,
        (statsFor db k.1 k.2).2.2⟩ := by
  rcases ho : updateFirst k.1 (k.2 : Int) (statsFor db k.1 k.2) acc with _ | l
  · have hacc := updateFirst_none_lookup k.1 (k.2 : Int) (statsFor db k.1 k.2) acc ho
    unfold statLookup at hacc ⊢
    simp only [upsertStat, ho]
    rw [List.find?_append, hacc]
    simp [List.find?]
  · simp only [upsertStat, ho]
    exact updateFirst_some_lookup_hit k.1 (k.2 : Int) (statsFor db k.1 k.2) acc l ho

theorem upsertStat_lookup_other (db : List WeatherRecord) (acc : List WeatherStats)
    (k : String × Nat) (s : String) (y : Int) (hne : ¬(k.1 = s ∧ (k.2 : Int) = y)) :
    statLookup (upsertStat db acc k) s y = statLookup acc s y := by
  rcases ho : updateFirst k.1 (k.2 : Int) (statsFor db k.1 k.2) acc with _ | l
  · unfold statLookup
    simp only [upsertStat, ho]
    rw [List.find?_append]
    have hnew : List.find? (fun st => decide (st.station_id = s ∧ st.year = y))
        ([⟨k.1, (k.2 : Int), (statsFor db k.1 k.2).1, (statsFor db k.1 k.2).2.1,
          (statsFor db k.1 k.2).2.2⟩] : List WeatherStats) = none := by
      simp only [List.find?]
      rw [decide_eq_false hne]
    rw [hnew, Option.or_none]
  · simp only [upsertStat, ho]
    exact updateFirst_some_lookup_other k.1 (k.2 : Int) (statsFor db k.1 k.2) s y hne acc l ho

theorem foldl_upsert_not_mem (db : List WeatherRecord) (s : String) (y : Nat) :
    ∀ (ks : List (String × Nat)) (acc : List WeatherStats), (s, y) ∉ ks →
      statLookup (ks.foldl (upsertStat db) acc) s (y : Int) = statLookup acc s (y : Int)
  | [], acc => by intro _; rfl
  | k :: ks, acc => by
    intro hmem
    rw [List.foldl_cons]
    have hk : k ≠ (s, y) := fun h => hmem (h ▸ List.mem_cons_self k ks)
    have hne : ¬(k.1 = s ∧ (k.2 : Int) = (y : Int)) := by
      rintro ⟨h1, h2⟩
      exact hk (Prod.ext h1 (Nat.cast_injective h2))
    rw [foldl_upsert_not_mem db s y ks _ (fun h => hmem (List.mem_cons_of_mem k h))]
    exact upsertStat_lookup_other db acc k s (y : Int) hne

theorem foldl_upsert_mem (db : List WeatherRecord) (s : String) (y : Nat) :
    ∀ (ks : List (String × Nat)) (acc : List WeatherStats), ks.Nodup → (s, y) ∈ ks →
      statLookup (ks.foldl (upsertStat db) acc) s (y : Int) =
        some ⟨s, (y : Int), (statsFor db s y).1, (statsFor db s y).2.1,
          (statsFor db s y).2.2⟩
  | [], acc => by intro _ hmem; exact absurd hmem (List.not_mem_nil _)
  | k :: ks, acc => by
    intro hnd hmem
    rw [List.foldl_cons]
    by_cases hk : k = (s, y)
    · have hout : (s, y) ∉ ks := fun hin => (List.nodup_cons.mp hnd).1 (hk ▸ hin)
      rw [foldl_upsert_not_mem db s y ks _ hout, hk]
      exact upsertStat_lookup_hit db acc (s, y)
    · have hmem' : (s, y) ∈ ks := by
        rcases List.mem_cons.mp hmem with h | h
        · exact absurd h.symm hk
        · exact h
      exact foldl_upsert_mem db s y ks _ (List.nodup_cons.mp hnd).2 hmem'

theorem intListSum_cast (l : List Int) :
    ((l.sum : Int) : ℚ) = (l.map (fun v : Int => (v : ℚ))).sum := by
  induction l with
  | nil => simp
  | cons a t ih => simp [ih]

theorem statsFor_avg_max (db : List WeatherRecord) (s : String) (y : Nat) :
    (statsFor db s y).1 =
      (if ((db.filter (fun r => decide (r.station_id = s ∧ r.date.y = y))).filterMap
            (fun r => r.max_temp)) = [] then none
       else some (listMean
          (((db.filter (fun r => decide (r.station_id = s ∧ r.date.y = y))).filterMap
            (fun r => r.max_temp)).map (fun v : Int => (v : ℚ))) / 10)) := by
  unfold statsFor listMean
  dsimp only
  split_ifs with h
  · rfl
  · rw [intListSum_cast, List.length_map]

theorem statsFor_avg_min (db : List WeatherRecord) (s : String) (y : Nat) :
    (statsFor db s y).2.1 =
      (if ((db.filter (fun r => decide (r.station_id = s ∧ r.date.y = y))).filterMap
            (fun r => r.min_temp)) = [] then none
       else some (listMean
          (((db.filter (fun r => decide (r.station_id = s ∧ r.date.y = y))).filterMap
            (fun r => r.min_temp)).map (fun v : Int => (v : ℚ))) / 10)) := by
  unfold statsFor listMean
  dsimp only
  split_ifs with h
  · rfl
  · rw [intListSum_cast, List.length_map]

theorem statsFor_total_prec (db : List WeatherRecord) (s : String) (y : Nat) :
    (statsFor db s y).2.2 =
      (if ((db.filter (fun r => decide (r.station_id = s ∧ r.date.y = y))).filterMap
            (fun r => r.precipitation)) = [] then none
       else some ((((db.filter (fun r => decide (r.station_id = s ∧ r.date.y = y))).filterMap
            (fun r => r.precipitation)).map (fun v : Int => (v : ℚ))).sum / 100)) := by
  unfold statsFor
  dsimp only
  split_ifs with h
  · rfl
  · rw [intListSum_cast]

theorem runStats_ok (db : List WeatherRecord) :
    ∀ (ks : List (String × Nat)) (st : StatsRun),
      (∀ k ∈ ks, ckYearRange (k.2 : Int) = true) → st.badInsert = false →
      runStats db ks st = ⟨false, ks.foldl (upsertStat db) st.current⟩
  | [], st => by
    intro _ hb
    unfold runStats
    rw [hb]
    rfl
  | k :: ks, st => by
    intro hall hb
    have hck := hall k (List.mem_cons_self k ks)
    unfold runStats
    rw [hb, hck]
    simp only [Bool.not_true, Bool.and_false, Bool.false_or]
    have htl : ∀ kk ∈ ks, ckYearRange (kk.2 : Int) = true :=
      fun kk hkk => hall kk (List.mem_cons_of_mem k hkk)
    rw [List.foldl_cons]
    cases h100 : (st.processed + 1) % 100 == 0
    · rw [if_neg (by simp [h100])]
      exact runStats_ok db ks ⟨st.committed, upsertStat db st.current k, false,
        st.processed + 1⟩ htl rfl
    · rw [if_pos (by simp [h100]), if_neg (by simp)]
      exact runStats_ok db ks ⟨upsertStat db st.current k, upsertStat db st.current k,
        false, st.processed + 1⟩ htl rfl

/-- C3 counterexample: an Observation dated in 1850 makes the aggregation run
INSERT a stat row violating the weather_stats ck_year_range CHECK; the
IntegrityError aborts the run and the stat for that (station, year) pair is
not stored, although the pair has an Observation. -/
theorem c3_counterexample :
    (("S1", 1850) ∈
      ([⟨"S1", ⟨1850, 1, 1⟩, some 50, none, none⟩] :
        List WeatherRecord).map (fun r => (r.station_id, r.date.y))) ∧
    (calculate_weather_stats [⟨"S1", ⟨1850, 1, 1⟩, some 50, none, none⟩] []).raised = true ∧
    statLookup (calculate_weather_stats [⟨"S1", ⟨1850, 1, 1⟩, some 50, none, none⟩] []).stored
      "S1" ((1850 : Nat) : Int) = none := by
  refine ⟨by decide, ?_, ?_⟩ <;> rfl

/-- C3: provided every Observation's year lies within the weather_stats
ck_year_range CHECK (1900-2100), the aggregation run completes without an
IntegrityError and, for every stored (station, year) pair with at least one
Observation, stores exactly: average max (resp. min) temperature equal to
the mean of the non-missing max-temp (resp. min-temp) values divided by 10,
and total precipitation equal to the sum of the non-missing precipitation
values divided by 100 — each null exactly when there are zero non-missing
values for that metric. -/
theorem c3_aggregation (db : List WeatherRecord) (stats0 : List WeatherStats)
    (s : String) (y : Nat)
    (hok : ∀ r ∈ db, ckYearRange ((r.date.y : Nat) : Int) = true)
    (hmem : (s, y) ∈ db.map (fun r => (r.station_id, r.date.y))) :
    (calculate_weather_stats db stats0).raised = false ∧
    statLookup (calculate_weather_stats db stats0).stored s (y : Int) =
      some ⟨s, (y : Int),
        (if ((db.filter (fun r => decide (r.station_id = s ∧ r.date.y = y))).filterMap
              (fun r => r.max_temp)) = [] then none
         else some (listMean (((db.filter (fun r => decide (r.station_id = s ∧ r.date.y = y))).filterMap
              (fun r => r.max_temp)).map (fun v : Int => (v : ℚ))) / 10)),
        (if ((db.filter (fun r => decide (r.station_id = s ∧ r.date.y = y))).filterMap
              (fun r => r.min_temp)) = [] then none
         else some (listMean (((db.filter (fun r => decide (r.station_id = s ∧ r.date.y = y))).filterMap
              (fun r => r.min_temp)).map (fun v : Int => (v : ℚ))) / 10)),
        (if ((db.filter (fun r => decide (r.station_id = s ∧ r.date.y = y))).filterMap
              (fun r => r.precipitation)) = [] then none
         else some ((((db.filter (fun r => decide (r.station_id = s ∧ r.date.y = y))).filterMap
              (fun r => r.precipitation)).map (fun v : Int => (v : ℚ))).sum / 100))⟩ := by
  have hks : (s, y) ∈ stationYearPairs db := by
    unfold stationYearPairs
    rw [List.mem_insertionSort]
    exact List.mem_dedup.mpr hmem
  have hnd : (stationYearPairs db).Nodup :=
    ((List.perm_insertionSort pairLe _).nodup_iff).mpr (List.nodup_dedup _)
  have hall : ∀ kk ∈ stationYearPairs db, ckYearRange (kk.2 : Int) = true := by
    intro kk hkk
    unfold stationYearPairs at hkk
    rw [List.mem_insertionSort] at hkk
    obtain ⟨r, hr, hrk⟩ := List.mem_map.mp (List.mem_dedup.mp hkk)
    subst hrk
    exact hok r hr
  have hrun := runStats_ok db (stationYearPairs db) ⟨stats0, stats0, false, 0⟩ hall rfl
  unfold calculate_weather_stats
  rw [hrun]
  refine ⟨rfl, ?_⟩
  show statLookup ((stationYearPairs db).foldl (upsertStat db) stats0) s (y : Int) = _
  rw [foldl_upsert_mem db s y (stationYearPairs db) stats0 hnd hks,
    statsFor_avg_max, statsFor_avg_min, statsFor_total_prec]

/-! ## C2: idempotent ingestion -/

theorem parse_blank {line : String} (station_id : String) (hb : pyStrip line.toList = []) :
    parse_weather_line line station_id = .error (.fieldCount 1) := by
  unfold parse_weather_line
  rw [hb]
  rfl

theorem procLine_blank (station_id : String) (x : Session × Counts) (line : String)
    (hb : pyStrip line.toList = []) : procLine station_id x line = x := by
  unfold procLine
  rw [if_pos hb]

theorem procLine_parse_error (station_id : String) (x : Session × Counts) (line : String)
    (hb : pyStrip line.toList ≠ []) (e : ParseErr)
    (hp : parse_weather_line line station_id = .error e) :
    procLine station_id x line = (x.1, { x.2 with failed := x.2.failed + 1 }) := by
  unfold procLine
  rw [if_neg hb, hp]

theorem procLine_dup (station_id : String) (x : Session × Counts) (line : String)
    (r : WeatherRecord) (hp : parse_weather_line line station_id = .ok r)
    (hk : hasKey (x.1.committed ++ x.1.pending) r.station_id r.date = true) :
    procLine station_id x line =
      ({ x.1 with pending := [] }, { x.2 with skipped := x.2.skipped + 1 }) := by
  unfold procLine
  simp only [if_neg (parse_ok_not_blank hp), hp, hk, if_true]

theorem procLine_insert (station_id : String) (x : Session × Counts) (line : String)
    (r : WeatherRecord) (hp : parse_weather_line line station_id = .ok r)
    (hk : hasKey (x.1.committed ++ x.1.pending) r.station_id r.date = false) :
    procLine station_id x line =
      ({ x.1 with pending := x.1.pending ++ [r] },
       { x.2 with inserted := x.2.inserted + 1 }) := by
  unfold procLine
  simp only [if_neg (parse_ok_not_blank hp), hp, hk, Bool.false_eq_true, if_false]

theorem hasKey_iff (l : List WeatherRecord) (s : String) (dt : PyDate) :
    hasKey l s dt = true ↔ (s, dt) ∈ keysOf l := by
  simp [hasKey, keysOf, recKey, List.any_eq_true, List.mem_map]

theorem hasKey_false_iff (l : List WeatherRecord) (s : String) (dt : PyDate) :
    hasKey l s dt = false ↔ (s, dt) ∉ keysOf l := by
  rw [← hasKey_iff l s dt]
  constructor
  · intro h hc
    rw [h] at hc
    exact Bool.noConfusion hc
  · intro h
    cases hc : hasKey l s dt
    · rfl
    · exact absurd hc h

theorem keysOf_append (a b : List WeatherRecord) :
    keysOf (a ++ b) = keysOf a ++ keysOf b := List.map_append recKey a b

theorem Counts_ext {a b : Counts} (h1 : a.inserted = b.inserted)
    (h2 : a.skipped = b.skipped) (h3 : a.failed = b.failed) : a = b := by
  cases a
  cases b
  simp only at h1 h2 h3
  rw [h1, h2, h3]

theorem foldl_procLine_fresh (station_id : String) :
    ∀ (lines : List String) (committed pending : List WeatherRecord) (c : Counts),
      (∀ r ∈ recsOf station_id lines, hasKey committed r.station_id r.date = false) →
      (keysOf (pending ++ recsOf station_id lines)).Nodup →
      lines.foldl (procLine station_id) (⟨committed, pending⟩, c) =
        (⟨committed, pending ++ recsOf station_id lines⟩,
         ⟨c.inserted + (recsOf station_id lines).length, c.skipped,
          c.failed + failsOf station_id lines⟩)
  | [], committed, pending, c => by
    intro _ _
    simp [recsOf, failsOf]
  | l :: ls, committed, pending, c => by
    intro hfresh hnd
    by_cases hb : pyStrip l.data = []
    · have hpe := @parse_blank l station_id hb
      have hrecs : recsOf station_id (l :: ls) = recsOf station_id ls := by
        simp [recsOf, List.filterMap_cons, hpe, Except.toOption]
      have hfails : failsOf station_id (l :: ls) = failsOf station_id ls := by
        simp [failsOf, List.filter_cons, hb]
      rw [hrecs] at hfresh hnd
      rw [List.foldl_cons, procLine_blank station_id _ l hb, hrecs, hfails]
      exact foldl_procLine_fresh station_id ls committed pending c hfresh hnd
    · rcases hpo : parse_weather_line l station_id with e | r
      · have hrecs : recsOf station_id (l :: ls) = recsOf station_id ls := by
          simp [recsOf, List.filterMap_cons, hpo, Except.toOption]
        have hfails : failsOf station_id (l :: ls) = failsOf station_id ls + 1 := by
          simp [failsOf, List.filter_cons, hb, hpo, Except.toOption]
        rw [hrecs] at hfresh hnd
        rw [List.foldl_cons, procLine_parse_error station_id _ l hb e hpo, hrecs, hfails]
        rw [foldl_procLine_fresh station_id ls committed pending
          { c with failed := c.failed + 1 } hfresh hnd]
        refine Prod.ext rfl (Counts_ext rfl rfl ?_)
        show c.failed + 1 + failsOf station_id ls = c.failed + (failsOf station_id ls + 1)
        omega
      · have hrecs : recsOf station_id (l :: ls) = r :: recsOf station_id ls := by
          simp [recsOf, List.filterMap_cons, hpo, Except.toOption]
        have hfails : failsOf station_id (l :: ls) = failsOf station_id ls := by
          simp [failsOf, List.filter_cons, hb, hpo, Except.toOption]
        rw [hrecs] at hfresh hnd
        have hkc : hasKey committed r.station_id r.date = false :=
          hfresh r (List.mem_cons_self r _)
        have hkp : hasKey pending r.station_id r.date = false := by
          rw [hasKey_false_iff]
          intro hin
          rw [keysOf_append, List.nodup_append] at hnd
          exact hnd.2.2 hin (by simp [keysOf, recKey])
        have hk : hasKey (committed ++ pending) r.station_id r.date = false := by
          unfold hasKey at hkc hkp ⊢
          rw [List.any_append, hkc, hkp]
          rfl
        rw [List.foldl_cons,
          procLine_insert station_id (⟨committed, pending⟩, c) l r hpo hk, hrecs, hfails]
        have hfresh2 : ∀ x ∈ recsOf station_id ls,
            hasKey committed x.station_id x.date = false :=
          fun x h => hfresh x (List.mem_cons_of_mem r h)
        have hnd2 : (keysOf ((pending ++ [r]) ++ recsOf station_id ls)).Nodup := by
          simp only [keysOf_append, List.append_assoc, List.singleton_append]
          simpa [keysOf_append] using hnd
        rw [foldl_procLine_fresh station_id ls committed (pending ++ [r])
          { c with inserted := c.inserted + 1 } hfresh2 hnd2]
        refine Prod.ext (by simp) (Counts_ext ?_ rfl rfl)
        show c.inserted + 1 + (recsOf station_id ls).length =
          c.inserted + ((recsOf station_id ls).length + 1)
        omega

theorem foldl_procLine_alldup (station_id : String) :
    ∀ (lines : List String) (committed : List WeatherRecord) (c : Counts),
      (∀ r ∈ recsOf station_id lines, hasKey committed r.station_id r.date = true) →
      lines.foldl (procLine station_id) (⟨committed, []⟩, c) =
        (⟨committed, []⟩,
         ⟨c.inserted, c.skipped + (recsOf station_id lines).length,
          c.failed + failsOf station_id lines⟩)
  | [], committed, c => by
    intro _
    simp [recsOf, failsOf]
  | l :: ls, committed, c => by
    intro hdup
    by_cases hb : pyStrip l.data = []
    · have hpe := @parse_blank l station_id hb
      have hrecs : recsOf station_id (l :: ls) = recsOf station_id ls := by
        simp [recsOf, List.filterMap_cons, hpe, Except.toOption]
      have hfails : failsOf station_id (l :: ls) = failsOf station_id ls := by
        simp [failsOf, List.filter_cons, hb]
      rw [hrecs] at hdup
      rw [List.foldl_cons, procLine_blank station_id _ l hb, hrecs, hfails]
      exact foldl_procLine_alldup station_id ls committed c hdup
    · rcases hpo : parse_weather_line l station_id with e | r
      · have hrecs : recsOf station_id (l :: ls) = recsOf station_id ls := by
          simp [recsOf, List.filterMap_cons, hpo, Except.toOption]
        have hfails : failsOf station_id (l :: ls) = failsOf station_id ls + 1 := by
          simp [failsOf, List.filter_cons, hb, hpo, Except.toOption]
        rw [hrecs] at hdup
        rw [List.foldl_cons, procLine_parse_error station_id _ l hb e hpo, hrecs, hfails]
        rw [foldl_procLine_alldup station_id ls committed
          { c with failed := c.failed + 1 } hdup]
        refine Prod.ext rfl (Counts_ext rfl rfl ?_)
        show c.failed + 1 + failsOf station_id ls = c.failed + (failsOf station_id ls + 1)
        omega
      · have hrecs : recsOf station_id (l :: ls) = r :: recsOf station_id ls := by
          simp [recsOf, List.filterMap_cons, hpo, Except.toOption]
        have hfails : failsOf station_id (l :: ls) = failsOf station_id ls := by
          simp [failsOf, List.filter_cons, hb, hpo, Except.toOption]
        rw [hrecs] at hdup
        have hkc : hasKey committed r.station_id r.date = true :=
          hdup r (List.mem_cons_self r _)
        have hk : hasKey (committed ++ ([] : List WeatherRecord)) r.station_id r.date = true := by
          unfold hasKey at hkc ⊢
          rw [List.any_append, hkc]
          rfl
        rw [List.foldl_cons,
          procLine_dup station_id (⟨committed, []⟩, c) l r hpo hk, hrecs, hfails]
        rw [foldl_procLine_alldup station_id ls committed
          { c with skipped := c.skipped + 1 }
          (fun x h => hdup x (List.mem_cons_of_mem r h))]
        refine Prod.ext rfl (Counts_ext rfl ?_ rfl)
        show c.skipped + 1 + (recsOf station_id ls).length =
          c.skipped + ((recsOf station_id ls).length + 1)
        omega

theorem ingest_file_fresh (f : WeatherFile) (committed : List WeatherRecord)
    (hfresh : ∀ r ∈ parsedRecords f, hasKey committed r.station_id r.date = false)
    (hnd : (keysOf (parsedRecords f)).Nodup) :
    ingest_weather_file f ⟨committed, []⟩ =
      (⟨committed, parsedRecords f⟩, ⟨(parsedRecords f).length, 0, failCount f⟩,
       f.errAfter.isSome) := by
  unfold ingest_weather_file
  rw [foldl_procLine_fresh f.stem (effectiveLines f) committed [] ⟨0, 0, 0⟩ hfresh
    (by simpa using hnd)]
  refine Prod.ext ?_ (Prod.ext (Counts_ext ?_ rfl ?_) rfl)
  · show (⟨committed, [] ++ parsedRecords f⟩ : Session) = ⟨committed, parsedRecords f⟩
    rw [List.nil_append]
  · show 0 + (parsedRecords f).length = (parsedRecords f).length
    omega
  · show 0 + failCount f = failCount f
    omega

theorem ingest_file_alldup (f : WeatherFile) (committed : List WeatherRecord)
    (hdup : ∀ r ∈ parsedRecords f, hasKey committed r.station_id r.date = true) :
    ingest_weather_file f ⟨committed, []⟩ =
      (⟨committed, []⟩, ⟨0, (parsedRecords f).length, failCount f⟩, f.errAfter.isSome) := by
  unfold ingest_weather_file
  rw [foldl_procLine_alldup f.stem (effectiveLines f) committed ⟨0, 0, 0⟩ hdup]
  refine Prod.ext rfl (Prod.ext (Counts_ext rfl ?_ ?_) rfl)
  · show 0 + (parsedRecords f).length = (parsedRecords f).length
    omega
  · show 0 + failCount f = failCount f
    omega

theorem foldl_ingestStep_fresh :
    ∀ (files : List WeatherFile) (db : List WeatherRecord) (c : Counts),
      (keysOf db ++ (files.map (fun f => keysOf (parsedRecords f))).flatten).Nodup →
      files.foldl ingestStep (db, c) =
        (db ++ committedRecords files,
         ⟨c.inserted + insertedTotal files, c.skipped, c.failed + failedTotal files⟩)
  | [], db, c => by
    intro _
    simp [committedRecords, insertedTotal, failedTotal]
  | f :: files, db, c => by
    intro hnd
    simp only [List.map_cons, List.flatten_cons] at hnd
    rw [List.foldl_cons]
    by_cases hr : f.errAfter.isSome = true
    · rw [ingestStep_raised (db, c) f hr]
      have h1 : committedRecords (f :: files) = committedRecords files := by
        simp [committedRecords, hr]
      have h2 : insertedTotal (f :: files) = insertedTotal files := by
        simp [insertedTotal, hr]
      have h3 : failedTotal (f :: files) = failedTotal files := by
        simp [failedTotal, hr]
      rw [h1, h2, h3]
      apply foldl_ingestStep_fresh files db c
      refine List.Nodup.sublist ?_ hnd
      exact List.Sublist.append_left (List.sublist_append_right _ _) _
    · have hbool : f.errAfter.isSome = false := by
        cases hx : f.errAfter.isSome
        · rfl
        · exact absurd hx hr
      have hparts := List.nodup_append.mp hnd
      have hndf : (keysOf (parsedRecords f)).Nodup := (List.nodup_append.mp hparts.2.1).1
      have hfresh : ∀ r ∈ parsedRecords f, hasKey db r.station_id r.date = false := by
        intro r hrmem
        rw [hasKey_false_iff]
        intro hin
        refine hparts.2.2 hin (List.mem_append_left _ ?_)
        rw [keysOf, List.mem_map]
        exact ⟨r, hrmem, rfl⟩
      have hstep : ingestStep (db, c) f =
          (db ++ parsedRecords f,
           ⟨c.inserted + (parsedRecords f).length, c.skipped, c.failed + failCount f⟩) := by
        simp [ingestStep, ingest_file_fresh f db hfresh hndf, hbool]
      rw [hstep]
      have hnd2 : (keysOf (db ++ parsedRecords f) ++
          (files.map (fun g => keysOf (parsedRecords g))).flatten).Nodup := by
        rw [keysOf_append, List.append_assoc]
        exact hnd
      rw [foldl_ingestStep_fresh files (db ++ parsedRecords f) _ hnd2]
      have hc1 : committedRecords (f :: files) = parsedRecords f ++ committedRecords files := by
        simp [committedRecords, hbool]
      have hc2 : insertedTotal (f :: files) = (parsedRecords f).length + insertedTotal files := by
        simp [insertedTotal, hbool]
      have hc3 : failedTotal (f :: files) = failCount f + failedTotal files := by
        simp [failedTotal, hbool]
      refine Prod.ext ?_ (Counts_ext ?_ rfl ?_)
      · show (db ++ parsedRecords f) ++ committedRecords files =
          db ++ committedRecords (f :: files)
        rw [hc1, List.append_assoc]
      · show c.inserted + (parsedRecords f).length + insertedTotal files =
          c.inserted + insertedTotal (f :: files)
        rw [hc2]
        omega
      · show c.failed + failCount f + failedTotal files = c.failed + failedTotal (f :: files)
        rw [hc3]
        omega

theorem foldl_ingestStep_alldup :
    ∀ (files : List WeatherFile) (db : List WeatherRecord) (c : Counts),
      (∀ f ∈ files, f.errAfter.isSome = false →
        ∀ r ∈ parsedRecords f, hasKey db r.station_id r.date = true) →
      files.foldl ingestStep (db, c) =
        (db, ⟨c.inserted, c.skipped + insertedTotal files, c.failed + failedTotal files⟩)
  | [], db, c => by
    intro _
    simp [insertedTotal, failedTotal]
  | f :: files, db, c => by
    intro hsub
    rw [List.foldl_cons]
    by_cases hr : f.errAfter.isSome = true
    · rw [ingestStep_raised (db, c) f hr]
      have h2 : insertedTotal (f :: files) = insertedTotal files := by
        simp [insertedTotal, hr]
      have h3 : failedTotal (f :: files) = failedTotal files := by
        simp [failedTotal, hr]
      rw [h2, h3]
      exact foldl_ingestStep_alldup files db c
        (fun g hg => hsub g (List.mem_cons_of_mem f hg))
    · have hbool : f.errAfter.isSome = false := by
        cases hx : f.errAfter.isSome
        · rfl
        · exact absurd hx hr
      have hdup := hsub f (List.mem_cons_self f files) hbool
      have hstep : ingestStep (db, c) f =
          (db, ⟨c.inserted, c.skipped + (parsedRecords f).length, c.failed + failCount f⟩) := by
        simp [ingestStep, ingest_file_alldup f db hdup, hbool]
      rw [hstep]
      rw [foldl_ingestStep_alldup files db _
        (fun g hg => hsub g (List.mem_cons_of_mem f hg))]
      have hc2 : insertedTotal (f :: files) = (parsedRecords f).length + insertedTotal files := by
        simp [insertedTotal, hbool]
      have hc3 : failedTotal (f :: files) = failCount f + failedTotal files := by
        simp [failedTotal, hbool]
      refine Prod.ext rfl (Counts_ext rfl ?_ ?_)
      · show c.skipped + (parsedRecords f).length + insertedTotal files =
          c.skipped + insertedTotal (f :: files)
        rw [hc2]
        omega
      · show c.failed + failCount f + failedTotal files = c.failed + failedTotal (f :: files)
        rw [hc3]
        omega

/-- C2 (counterexample): a directory with one file containing two lines for
the same date. The first run reports one insertion but commits nothing (the
IntegrityError rollback of the duplicate line also discards the first,
still-uncommitted insert of the same file), so the second run over the
unchanged directory again reports one insertion instead of zero. -/
theorem c2_counterexample :
    (ingest_all_weather_data
      [⟨"S1", ["19850101\t1\t1\t1", "19850101\t2\t2\t2"], none⟩] []).2.inserted = 1 ∧
    (ingest_all_weather_data
      [⟨"S1", ["19850101\t1\t1\t1", "19850101\t2\t2\t2"], none⟩] []).1 = [] ∧
    (ingest_all_weather_data
      [⟨"S1", ["19850101\t1\t1\t1", "19850101\t2\t2\t2"], none⟩]
      (ingest_all_weather_data
        [⟨"S1", ["19850101\t1\t1\t1", "19850101\t2\t2\t2"], none⟩] []).1).2.inserted = 1 := by
  refine ⟨by decide, by decide, by decide⟩

/-- C2 (amended): ingestion is idempotent for directories in which no two
lines parse to the same (station, date) key — since the station is the
file's unique base name, equivalently: no file contains two lines with the
same date. For such a directory, starting from empty storage, the second
run inserts nothing, its skipped count equals the first run's inserted
count, and storage is unchanged by the second run. -/
theorem c2_idempotent (files : List WeatherFile)
    (hnd : ((files.map (fun f => keysOf (parsedRecords f))).flatten).Nodup) :
    (ingest_all_weather_data files (ingest_all_weather_data files []).1).2.inserted = 0 ∧
    (ingest_all_weather_data files (ingest_all_weather_data files []).1).2.skipped =
      (ingest_all_weather_data files []).2.inserted ∧
    (ingest_all_weather_data files (ingest_all_weather_data files []).1).1 =
      (ingest_all_weather_data files []).1 := by
  have h1 : ingest_all_weather_data files [] =
      (committedRecords files, ⟨insertedTotal files, 0, failedTotal files⟩) := by
    unfold ingest_all_weather_data
    rw [foldl_ingestStep_fresh files [] ⟨0, 0, 0⟩ (by simpa [keysOf] using hnd)]
    refine Prod.ext (by simp) (Counts_ext ?_ rfl ?_)
    · show 0 + insertedTotal files = insertedTotal files
      omega
    · show 0 + failedTotal files = failedTotal files
      omega
  have hsub : ∀ f ∈ files, f.errAfter.isSome = false →
      ∀ r ∈ parsedRecords f, hasKey (committedRecords files) r.station_id r.date = true := by
    intro f hf hbool r hrmem
    rw [hasKey_iff]
    have hrin : r ∈ committedRecords files := by
      unfold committedRecords
      rw [List.mem_flatten]
      refine ⟨parsedRecords f, ?_, hrmem⟩
      rw [List.mem_map]
      exact ⟨f, hf, by rw [hbool]; rfl⟩
    rw [keysOf, List.mem_map]
    exact ⟨r, hrin, rfl⟩
  have h2 : ingest_all_weather_data files (committedRecords files) =
      (committedRecords files, ⟨0, insertedTotal files, failedTotal files⟩) := by
    unfold ingest_all_weather_data
    rw [foldl_ingestStep_alldup files (committedRecords files) ⟨0, 0, 0⟩ hsub]
    refine Prod.ext rfl (Counts_ext rfl ?_ ?_)
    · show 0 + insertedTotal files = insertedTotal files
      omega
    · show 0 + failedTotal files = failedTotal files
      omega
  rw [h1]
  rw [show (committedRecords files,
      (⟨insertedTotal files, 0, failedTotal files⟩ : Counts)).1 = committedRecords files
    from rfl, h2]
  exact ⟨rfl, rfl, rfl⟩

theorem c2_witness :
    ((([⟨"S1", ["19850101\t  -22\t -128\t   94", "19850102\t -122\t -217\t    0"], none⟩] :
        List WeatherFile).map (fun f => keysOf (parsedRecords f))).flatten).Nodup ∧
    (ingest_all_weather_data
      [⟨"S1", ["19850101\t  -22\t -128\t   94", "19850102\t -122\t -217\t    0"], none⟩]
      (ingest_all_weather_data
        [⟨"S1", ["19850101\t  -22\t -128\t   94", "19850102\t -122\t -217\t    0"], none⟩]
        []).1).2.inserted = 0 ∧
    (ingest_all_weather_data
      [⟨"S1", ["19850101\t  -22\t -128\t   94", "19850102\t -122\t -217\t    0"], none⟩]
      (ingest_all_weather_data
        [⟨"S1", ["19850101\t  -22\t -128\t   94", "19850102\t -122\t -217\t    0"], none⟩]
        []).1).2.skipped =
      (ingest_all_weather_data
        [⟨"S1", ["19850101\t  -22\t -128\t   94", "19850102\t -122\t -217\t    0"], none⟩]
        []).2.inserted ∧
    (ingest_all_weather_data
      [⟨"S1", ["19850101\t  -22\t -128\t   94", "19850102\t -122\t -217\t    0"], none⟩]
      (ingest_all_weather_data
        [⟨"S1", ["19850101\t  -22\t -128\t   94", "19850102\t -122\t -217\t    0"], none⟩]
        []).1).1 =
      (ingest_all_weather_data
        [⟨"S1", ["19850101\t  -22\t -128\t   94", "19850102\t -122\t -217\t    0"], none⟩]
        []).1 :=
  ⟨by decide,
   c2_idempotent
     [⟨"S1", ["19850101\t  -22\t -128\t   94", "19850102\t -122\t -217\t    0"], none⟩]
     (by decide)⟩

theorem c3_witness :
    (∀ r ∈ ([⟨"USC00110187", ⟨1985, 1, 1⟩, some 50, some (-50), some 100⟩] :
        List WeatherRecord), ckYearRange ((r.date.y : Nat) : Int) = true) ∧
    (("USC00110187", 1985) ∈
      ([⟨"USC00110187", ⟨1985, 1, 1⟩, some 50, some (-50), some 100⟩] :
        List WeatherRecord).map (fun r => (r.station_id, r.date.y))) ∧
    (calculate_weather_stats
        [⟨"USC00110187", ⟨1985, 1, 1⟩, some 50, some (-50), some 100⟩] []).raised = false ∧
    statLookup (calculate_weather_stats
        [⟨"USC00110187", ⟨1985, 1, 1⟩, some 50, some (-50), some 100⟩] []).stored
      "USC00110187" ((1985 : Nat) : Int) =
      some ⟨"USC00110187", 1985, some 5, some (-5), some 1⟩ :=
  ⟨by decide, by decide,
   (c3_aggregation [⟨"USC00110187", ⟨1985, 1, 1⟩, some 50, some (-50), some 100⟩] []
      "USC00110187" 1985 (by decide) (by decide)).1,
   ((c3_aggregation [⟨"USC00110187", ⟨1985, 1, 1⟩, some 50, some (-50), some 100⟩] []
      "USC00110187" 1985 (by decide) (by decide)).2).trans
     (by norm_num [listMean, List.filterMap_cons, List.filterMap_nil])⟩

/-! ## C9: invalid date filters -/

theorem applyDateParam_error_msg (q : List WeatherRecord) (o : Option String)
    (keep : PyDate → WeatherRecord → Bool) (e : String)
    (h : applyDateParam q o keep = .error e) : e = "Date must be in YYYY-MM-DD format" := by
  rcases o with _ | s
  · simp only [applyDateParam] at h
    exact Except.noConfusion h
  · simp only [applyDateParam] at h
    by_cases hs : s = ""
    · rw [if_pos hs] at h
      exact Except.noConfusion h
    · rw [if_neg hs] at h
      rcases hp : parse_date s with _ | dt <;> rw [hp] at h
      · cases h
        rfl
      · exact Except.noConfusion h

theorem applyDateParam_invalid (q : List WeatherRecord)
    (keep : PyDate → WeatherRecord → Bool) (s : String) (hne : s ≠ "")
    (hbad : parse_date s = none) :
    applyDateParam q (some s) keep = .error "Date must be in YYYY-MM-DD format" := by
  simp only [applyDateParam]
  rw [if_neg hne, hbad]

/-- C9 (counterexample): an empty-string date parameter is not a valid date
string, yet the query is answered normally (HTTP 200 semantics) because the
truthiness guard skips empty parameters: no validation error is returned. -/
theorem c9_counterexample :
    parse_date "" = none ∧
    weather_list_get [] { date := some "" } =
      .ok ⟨[], 1, 100, 0, 0⟩ := by
  refine ⟨by decide, by decide⟩

/-- C9 (amended): for every Observation query that carries a non-empty date,
start_date or end_date parameter that is not a valid YYYY-MM-DD date, the
handler returns the validation error naming the expected format, and the
result does not depend on storage at all (the query is not executed, not
even partially); an empty-string date parameter, however, is silently
treated as absent. -/
theorem c9_invalid_date_rejected (db : List WeatherRecord) (p : WeatherParams)
    (hinv : ∃ s, (p.date = some s ∨ p.start_date = some s ∨ p.end_date = some s) ∧
      s ≠ "" ∧ parse_date s = none) :
    weather_list_get db p = .error "Date must be in YYYY-MM-DD format" := by
  obtain ⟨s, hmem, hne, hbad⟩ := hinv
  simp only [weather_list_get]
  generalize (match p.station_id with
    | some t => if t = "" then db else db.filter (fun r => decide (r.station_id = t))
    | none => db) = q1
  rcases hmem with h | h | h
  · rw [h, applyDateParam_invalid _ _ s hne hbad]
    rfl
  · rcases hd : applyDateParam q1 p.date (fun dt r => decide (r.date = dt)) with e | q2
    · rw [show e = "Date must be in YYYY-MM-DD format" from
        applyDateParam_error_msg _ _ _ e hd]
      rfl
    · simp only [Except.bind]
      rw [h, applyDateParam_invalid _ _ s hne hbad]
  · rcases hd : applyDateParam q1 p.date (fun dt r => decide (r.date = dt)) with e | q2
    · rw [show e = "Date must be in YYYY-MM-DD format" from
        applyDateParam_error_msg _ _ _ e hd]
      rfl
    · simp only [Except.bind]
      rcases hd2 : applyDateParam q2 p.start_date
          (fun dt r => decide (dateCode dt ≤ dateCode r.date)) with e2 | q3
      · rw [show e2 = "Date must be in YYYY-MM-DD format" from
          applyDateParam_error_msg _ _ _ e2 hd2]
      · simp only [Except.bind]
        rw [h, applyDateParam_invalid _ _ s hne hbad]

theorem c9_witness :
    (∃ s, (({ date := some "2024-13-45" } : WeatherParams).date = some s ∨
        ({ date := some "2024-13-45" } : WeatherParams).start_date = some s ∨
        ({ date := some "2024-13-45" } : WeatherParams).end_date = some s) ∧
      s ≠ "" ∧ parse_date s = none) ∧
    weather_list_get [] { date := some "2024-13-45" } =
      .error "Date must be in YYYY-MM-DD format" :=
  ⟨⟨"2024-13-45", Or.inl rfl, by decide, by decide⟩,
   c9_invalid_date_rejected [] { date := some "2024-13-45" }
     ⟨"2024-13-45", Or.inl rfl, by decide, by decide⟩⟩

/-! ## C7: ordering and pagination -/

theorem char_toNat_inj {a b : Char} (h : a.toNat = b.toNat) : a = b :=
  Char.ext (UInt32.ext h)

theorem charListLe_total : ∀ a b : List Char, charListLe a b = true ∨ charListLe b a = true
  | [], _ => Or.inl rfl
  | _ :: _, [] => Or.inr rfl
  | a :: as, b :: bs => by
    unfold charListLe
    by_cases hab : a = b
    · rw [if_pos hab, if_pos hab.symm]
      exact charListLe_total as bs
    · rw [if_neg hab, if_neg (fun h => hab h.symm)]
      rcases Nat.lt_trichotomy a.toNat b.toNat with h | h | h
      · exact Or.inl (by simpa using h)
      · exact absurd (char_toNat_inj h) hab
      · exact Or.inr (by simpa using h)

theorem charListLe_trans :
    ∀ a b c : List Char, charListLe a b = true → charListLe b c = true →
      charListLe a c = true
  | [], _, _ => by
    intro _ _
    rfl
  | a :: as, [], c => by
    intro h _
    exact absurd h (by simp [charListLe])
  | a :: as, b :: bs, [] => by
    intro _ h
    exact absurd h (by simp [charListLe])
  | a :: as, b :: bs, c :: cs => by
    intro h1 h2
    unfold charListLe at h1 h2 ⊢
    by_cases hab : a = b <;> by_cases hbc : b = c
    · rw [if_pos hab] at h1
      rw [if_pos hbc] at h2
      rw [if_pos (hab.trans hbc)]
      exact charListLe_trans as bs cs h1 h2
    · rw [if_pos hab] at h1
      rw [if_neg hbc] at h2
      rw [if_neg (fun h => hbc (hab.symm.trans h)), hab]
      exact h2
    · rw [if_neg hab] at h1
      rw [if_pos hbc] at h2
      rw [if_neg (fun h => hab (h.trans hbc.symm)), ← hbc]
      exact h1
    · rw [if_neg hab] at h1
      rw [if_neg hbc] at h2
      by_cases hac : a = c
      · exfalso
        simp only [decide_eq_true_eq] at h1 h2
        have : a.toNat < a.toNat := Nat.lt_trans h1 (hac ▸ h2)
        exact Nat.lt_irrefl _ this
      · rw [if_neg hac]
        simp only [decide_eq_true_eq] at h1 h2 ⊢
        exact Nat.lt_trans h1 h2

instance : IsTotal WeatherRecord wle := ⟨by
  intro a b
  unfold wle
  rcases Nat.lt_trichotomy (dateCode a.date) (dateCode b.date) with h | h | h
  · exact Or.inl (Or.inl h)
  · rcases charListLe_total a.station_id.toList b.station_id.toList with hs | hs
    · exact Or.inl (Or.inr ⟨h, hs⟩)
    · exact Or.inr (Or.inr ⟨h.symm, hs⟩)
  · exact Or.inr (Or.inl h)⟩

instance : IsTrans WeatherRecord wle := ⟨by
  intro a b c hab hbc
  rcases hab with h1 | ⟨e1, s1⟩ <;> rcases hbc with h2 | ⟨e2, s2⟩
  · exact Or.inl (Nat.lt_trans h1 h2)
  · exact Or.inl (e2 ▸ h1)
  · exact Or.inl (e1 ▸ h2)
  · exact Or.inr ⟨e1.trans e2, charListLe_trans _ _ _ s1 s2⟩⟩

instance : IsTotal WeatherStats sle := ⟨by
  intro a b
  unfold sle
  rcases lt_trichotomy a.year b.year with h | h | h
  · exact Or.inl (Or.inl h)
  · rcases charListLe_total a.station_id.toList b.station_id.toList with hs | hs
    · exact Or.inl (Or.inr ⟨h, hs⟩)
    · exact Or.inr (Or.inr ⟨h.symm, hs⟩)
  · exact Or.inr (Or.inl h)⟩

instance : IsTrans WeatherStats sle := ⟨by
  intro a b c hab hbc
  rcases hab with h1 | ⟨e1, s1⟩ <;> rcases hbc with h2 | ⟨e2, s2⟩
  · exact Or.inl (lt_trans h1 h2)
  · exact Or.inl (e2 ▸ h1)
  · exact Or.inl (e1 ▸ h2)
  · exact Or.inr ⟨e1.trans e2, charListLe_trans _ _ _ s1 s2⟩⟩

theorem Paged_ext {α : Type} {a b : Paged α} (h1 : a.data = b.data) (h2 : a.page = b.page)
    (h3 : a.page_size = b.page_size) (h4 : a.total_records = b.total_records)
    (h5 : a.total_pages = b.total_pages) : a = b := by
  cases a
  cases b
  simp only at h1 h2 h3 h4 h5
  rw [h1, h2, h3, h4, h5]

theorem get_pagination_params_size_bounds (p s : Option Int) :
    1 ≤ (get_pagination_params p s).2 ∧ (get_pagination_params p s).2 ≤ 1000 := by
  unfold get_pagination_params Config.DEFAULT_PAGE_SIZE Config.MAX_PAGE_SIZE
  rcases s with _ | v
  · simp [Option.getD]
  · simp only [Option.getD_some]
    split_ifs <;> omega

theorem get_pagination_params_page_pos (v : Int) (s : Option Int) (h : 1 ≤ v) :
    (get_pagination_params (some v) s).1 = v := by
  unfold get_pagination_params
  simp only [Option.getD_some]
  rw [if_neg (by omega)]

theorem get_pagination_params_size_indep (a b s : Option Int) :
    (get_pagination_params a s).2 = (get_pagination_params b s).2 := rfl

theorem le_totalPages_mul (n sz : Nat) (hsz : 0 < sz) : n ≤ totalPagesNat n sz * sz := by
  unfold totalPagesNat
  have key := Nat.div_add_mod (n + sz - 1) sz
  have hr : (n + sz - 1) % sz < sz := Nat.mod_lt _ hsz
  rw [Nat.mul_comm]
  generalize hM : sz * ((n + sz - 1) / sz) = M at key
  omega

theorem totalPages_mul_le (n sz : Nat) : totalPagesNat n sz * sz ≤ n + sz - 1 := by
  unfold totalPagesNat
  exact Nat.div_mul_le_self _ _

theorem total_pages_int (total : Nat) (sz : Int) (hsz : 1 ≤ sz) :
    ((total : Int) + sz - 1) / sz = ((totalPagesNat total sz.toNat : Nat) : Int) := by
  unfold totalPagesNat
  have hcast : ((total + sz.toNat - 1 : Nat) : Int) = (total : Int) + sz - 1 := by omega
  rw [← hcast, Int.natCast_div]
  have hsz' : ((sz.toNat : Nat) : Int) = sz := Int.toNat_of_nonneg (by omega)
  rw [hsz']

theorem totalPages_eq_ceil (n sz : Nat) (hsz : 0 < sz) :
    ((totalPagesNat n sz : Nat) : ℤ) = ⌈(n : ℚ) / (sz : ℚ)⌉ := by
  have hszq : (0 : ℚ) < (sz : ℚ) := by exact_mod_cast hsz
  rw [eq_comm, Int.ceil_eq_iff]
  constructor
  · rcases Nat.eq_zero_or_pos n with hn | hn
    · subst hn
      have hq : totalPagesNat 0 sz = 0 := by
        unfold totalPagesNat
        exact Nat.div_eq_of_lt (by omega)
      rw [hq]
      simp
    · rw [lt_div_iff₀ hszq]
      have hB := totalPages_mul_le n sz
      have hB' : ((totalPagesNat n sz : Nat) : ℚ) * (sz : ℚ) ≤ (n : ℚ) + (sz : ℚ) - 1 := by
        have : ((totalPagesNat n sz * sz : Nat) : ℚ) ≤ ((n + sz - 1 : Nat) : ℚ) := by
          exact_mod_cast hB
        rw [Nat.cast_mul] at this
        have hsub : ((n + sz - 1 : Nat) : ℚ) = (n : ℚ) + (sz : ℚ) - 1 := by
          have h1 : 1 ≤ n + sz := by omega
          push_cast [Nat.cast_sub h1]
          ring
        rw [hsub] at this
        exact this
      have hexp : (((totalPagesNat n sz : Nat) : ℚ) - 1) * (sz : ℚ) =
          ((totalPagesNat n sz : Nat) : ℚ) * (sz : ℚ) - (sz : ℚ) := by ring
      rw [Int.cast_natCast, hexp]
      have hn' : (1 : ℚ) ≤ (n : ℚ) := by exact_mod_cast hn
      linarith
  · rw [div_le_iff₀ hszq]
    have hA := le_totalPages_mul n sz hsz
    rw [Int.cast_natCast]
    exact_mod_cast hA

theorem pageSlices_flatten {α : Type} (sz : Nat) (hsz : 0 < sz) :
    ∀ (k : Nat) (l : List α), l.length ≤ k * sz →
      ((List.range k).map (fun n => pageSlice l n sz)).flatten = l
  | 0, l => by
    intro h
    have hl : l = [] := List.eq_nil_of_length_eq_zero (by omega)
    simp [hl]
  | k + 1, l => by
    intro h
    rw [List.range_succ_eq_map, List.map_cons, List.flatten_cons, List.map_map]
    have hhead : pageSlice l 0 sz = l.take sz := by
      simp [pageSlice]
    have htail : ∀ n ∈ List.range k,
        ((fun n => pageSlice l n sz) ∘ Nat.succ) n = pageSlice (l.drop sz) n sz := by
      intro n _
      show pageSlice l (n + 1) sz = pageSlice (l.drop sz) n sz
      unfold pageSlice
      rw [List.drop_drop]
      congr 2
      rw [Nat.succ_mul]
      omega
    rw [hhead, List.map_congr_left htail]
    rw [pageSlices_flatten sz hsz k (l.drop sz)
      (by rw [List.length_drop, Nat.succ_mul] at *; omega)]
    exact List.take_append_drop sz l

theorem pages_cover {α : Type} (l : List α) (sz : Nat) (hsz : 0 < sz) :
    ((List.range (totalPagesNat l.length sz)).map (fun n => pageSlice l n sz)).flatten = l :=
  pageSlices_flatten sz hsz (totalPagesNat l.length sz) l (le_totalPages_mul l.length sz hsz)

theorem station_match_w (db : List WeatherRecord) (o : Option String) :
    (match o with
      | some s => if s = "" then db else db.filter (fun r => decide (r.station_id = s))
      | none => db) =
      db.filter (stationPredOn (fun x => x.station_id) o) := by
  rcases o with _ | s
  · exact (List.filter_true db).symm
  · by_cases hs : s = ""
    · subst hs
      exact (List.filter_true db).symm
    · show (if s = "" then db else db.filter (fun r => decide (r.station_id = s))) =
        db.filter (stationPredOn (fun x => x.station_id) (some s))
      rw [if_neg hs]
      refine List.filter_congr (fun x _ => ?_)
      show decide (x.station_id = s) = if s = "" then true else decide (x.station_id = s)
      rw [if_neg hs]

theorem station_match_s (db : List WeatherStats) (o : Option String) :
    (match o with
      | some s => if s = "" then db else db.filter (fun st => decide (st.station_id = s))
      | none => db) =
      db.filter (stationPredOn (fun x => x.station_id) o) := by
  rcases o with _ | s
  · exact (List.filter_true db).symm
  · by_cases hs : s = ""
    · subst hs
      exact (List.filter_true db).symm
    · show (if s = "" then db else db.filter (fun st => decide (st.station_id = s))) =
        db.filter (stationPredOn (fun x => x.station_id) (some s))
      rw [if_neg hs]
      refine List.filter_congr (fun x _ => ?_)
      show decide (x.station_id = s) = if s = "" then true else decide (x.station_id = s)
      rw [if_neg hs]

theorem year_match_eq (db : List WeatherStats) (o : Option Int)
    (keep : Int → WeatherStats → Bool) :
    (match o with
      | some v => if v ≠ 0 then db.filter (keep v) else db
      | none => db) = db.filter (yearPred o keep) := by
  rcases o with _ | v
  · exact (List.filter_true db).symm
  · by_cases hv : v ≠ 0
    · show (if v ≠ 0 then db.filter (keep v) else db) = db.filter (yearPred (some v) keep)
      rw [if_pos hv]
      refine List.filter_congr (fun x _ => ?_)
      show keep v x = if v ≠ 0 then keep v x else true
      rw [if_pos hv]
    · show (if v ≠ 0 then db.filter (keep v) else db) = db.filter (yearPred (some v) keep)
      rw [if_neg hv]
      refine ((List.filter_congr (fun x _ => ?_)).trans (List.filter_true db)).symm
      show (if v ≠ 0 then keep v x else true) = true
      rw [if_neg hv]

theorem applyDateParam_valid (q : List WeatherRecord) (o : Option String)
    (keep : PyDate → WeatherRecord → Bool) (hok : dateParamOk o = true) :
    applyDateParam q o keep = .ok (q.filter (datePred o keep)) := by
  rcases o with _ | s
  · exact congrArg Except.ok (List.filter_true q).symm
  · simp only [applyDateParam]
    by_cases hs : s = ""
    · subst hs
      exact congrArg Except.ok (List.filter_true q).symm
    · rw [if_neg hs]
      rcases hp : parse_date s with _ | dt
      · exfalso
        simp only [dateParamOk] at hok
        rw [hp] at hok
        simp [hs] at hok
      · refine congrArg Except.ok ?_
        refine List.filter_congr (fun x _ => ?_)
        show keep dt x =
          if s = "" then true
          else match parse_date s with
            | some dt => keep dt x
            | none => true
        rw [if_neg hs, hp]

theorem weather_list_get_valid (db : List WeatherRecord) (p : WeatherParams)
    (hv : wParamsValid p = true) :
    weather_list_get db p = .ok (create_paginated_response
      ((((List.insertionSort wle (wFilter db p)).drop
          (((get_pagination_params p.page p.page_size).1 - 1) *
            (get_pagination_params p.page p.page_size).2).toNat).take
          (get_pagination_params p.page p.page_size).2.toNat).map weatherRecordToDict)
      (List.insertionSort wle (wFilter db p)).length
      (get_pagination_params p.page p.page_size).1
      (get_pagination_params p.page p.page_size).2) := by
  unfold wParamsValid at hv
  rw [Bool.and_eq_true, Bool.and_eq_true] at hv
  simp only [weather_list_get]
  rw [station_match_w db p.station_id]
  rw [applyDateParam_valid _ _ _ hv.1.1]
  simp only [Except.bind]
  rw [applyDateParam_valid _ _ _ hv.1.2]
  simp only [Except.bind]
  rw [applyDateParam_valid _ _ _ hv.2]
  simp only [Except.bind]
  rfl

theorem weather_stats_list_get_eq (db : List WeatherStats) (p : StatsParams) :
    weather_stats_list_get db p = create_paginated_response
      ((((List.insertionSort sle (sFilter db p)).drop
          (((get_pagination_params p.page p.page_size).1 - 1) *
            (get_pagination_params p.page p.page_size).2).toNat).take
          (get_pagination_params p.page p.page_size).2.toNat).map weatherStatsToDict)
      (List.insertionSort sle (sFilter db p)).length
      (get_pagination_params p.page p.page_size).1
      (get_pagination_params p.page p.page_size).2 := by
  simp only [weather_stats_list_get]
  rw [station_match_s db p.station_id]
  rw [year_match_eq _ p.year, year_match_eq _ p.start_year, year_match_eq _ p.end_year]
  rfl

theorem natMul_toNat (n : Nat) (sz : Int) (h : 0 ≤ sz) :
    ((n : Int) * sz).toNat = n * sz.toNat := by
  obtain ⟨m, rfl⟩ := Int.eq_ofNat_of_zero_le h
  rw [← Int.natCast_mul, Int.toNat_natCast, Int.toNat_natCast]

theorem wslice_eq (db : List WeatherRecord) (p : WeatherParams) (n : Nat) (sz : Int)
    (hsz : 1 ≤ sz) :
    (((List.insertionSort wle (wFilter db p)).drop ((((n : Int) + 1) - 1) * sz).toNat).take
        sz.toNat).map weatherRecordToDict =
      pageSlice (wFullList db p) n sz.toNat := by
  have h1 : (((n : Int) + 1) - 1) * sz = (n : Int) * sz := by ring_nf
  rw [h1, natMul_toNat n sz (by omega)]
  unfold pageSlice wFullList
  rw [List.map_take, List.map_drop]

theorem sslice_eq (db : List WeatherStats) (p : StatsParams) (n : Nat) (sz : Int)
    (hsz : 1 ≤ sz) :
    (((List.insertionSort sle (sFilter db p)).drop ((((n : Int) + 1) - 1) * sz).toNat).take
        sz.toNat).map weatherStatsToDict =
      pageSlice (sFullList db p) n sz.toNat := by
  have h1 : (((n : Int) + 1) - 1) * sz = (n : Int) * sz := by ring_nf
  rw [h1, natMul_toNat n sz (by omega)]
  unfold pageSlice sFullList
  rw [List.map_take, List.map_drop]

theorem weather_page_eq (db : List WeatherRecord) (p : WeatherParams) (n : Nat)
    (hv : wParamsValid p = true) :
    weather_list_get db { p with page := some ((n : Int) + 1) } =
      .ok (create_paginated_response
        (pageSlice (wFullList db p) n (get_pagination_params p.page p.page_size).2.toNat)
        (wFullList db p).length
        ((n : Int) + 1)
        (get_pagination_params p.page p.page_size).2) := by
  have hsz := (get_pagination_params_size_bounds p.page p.page_size).1
  have hv' : wParamsValid { p with page := some ((n : Int) + 1) } = true := hv
  rw [weather_list_get_valid _ _ hv']
  show Except.ok (create_paginated_response
      ((((List.insertionSort wle (wFilter db p)).drop
          (((get_pagination_params (some ((n : Int) + 1)) p.page_size).1 - 1) *
            (get_pagination_params (some ((n : Int) + 1)) p.page_size).2).toNat).take
          (get_pagination_params (some ((n : Int) + 1)) p.page_size).2.toNat).map
          weatherRecordToDict)
      (List.insertionSort wle (wFilter db p)).length
      (get_pagination_params (some ((n : Int) + 1)) p.page_size).1
      (get_pagination_params (some ((n : Int) + 1)) p.page_size).2) = _
  rw [get_pagination_params_page_pos ((n : Int) + 1) p.page_size (by omega)]
  rw [get_pagination_params_size_indep (some ((n : Int) + 1)) p.page p.page_size]
  rw [wslice_eq db p n _ hsz]
  rw [show (wFullList db p).length = (List.insertionSort wle (wFilter db p)).length from
    List.length_map _ _]

theorem stats_page_eq (db : List WeatherStats) (p : StatsParams) (n : Nat) :
    weather_stats_list_get db { p with page := some ((n : Int) + 1) } =
      create_paginated_response
        (pageSlice (sFullList db p) n (get_pagination_params p.page p.page_size).2.toNat)
        (sFullList db p).length
        ((n : Int) + 1)
        (get_pagination_params p.page p.page_size).2 := by
  have hsz := (get_pagination_params_size_bounds p.page p.page_size).1
  rw [weather_stats_list_get_eq]
  show create_paginated_response
      ((((List.insertionSort sle (sFilter db p)).drop
          (((get_pagination_params (some ((n : Int) + 1)) p.page_size).1 - 1) *
            (get_pagination_params (some ((n : Int) + 1)) p.page_size).2).toNat).take
          (get_pagination_params (some ((n : Int) + 1)) p.page_size).2.toNat).map
          weatherStatsToDict)
      (List.insertionSort sle (sFilter db p)).length
      (get_pagination_params (some ((n : Int) + 1)) p.page_size).1
      (get_pagination_params (some ((n : Int) + 1)) p.page_size).2 = _
  rw [get_pagination_params_page_pos ((n : Int) + 1) p.page_size (by omega)]
  rw [get_pagination_params_size_indep (some ((n : Int) + 1)) p.page p.page_size]
  rw [sslice_eq db p n _ hsz]
  rw [show (sFullList db p).length = (List.insertionSort sle (sFilter db p)).length from
    List.length_map _ _]

theorem wFullList_sorted (db : List WeatherRecord) (p : WeatherParams) :
    List.Sorted wRowLe (wFullList db p) :=
  List.Pairwise.map weatherRecordToDict (fun _ _ hab => hab)
    (List.sorted_insertionSort wle (wFilter db p))

theorem sFullList_sorted (db : List WeatherStats) (p : StatsParams) :
    List.Sorted sRowLe (sFullList db p) :=
  List.Pairwise.map weatherStatsToDict (fun _ _ hab => hab)
    (List.sorted_insertionSort sle (sFilter db p))

theorem wFilter_sublist (db : List WeatherRecord) (p : WeatherParams) :
    (wFilter db p).Sublist db := by
  unfold wFilter
  exact (List.filter_sublist _).trans ((List.filter_sublist _).trans
    ((List.filter_sublist _).trans (List.filter_sublist _)))

theorem sFilter_sublist (db : List WeatherStats) (p : StatsParams) :
    (sFilter db p).Sublist db := by
  unfold sFilter
  exact (List.filter_sublist _).trans ((List.filter_sublist _).trans
    ((List.filter_sublist _).trans (List.filter_sublist _)))

theorem wFullList_nodup (db : List WeatherRecord) (p : WeatherParams)
    (hnd : (db.map recKey).Nodup) : (wFullList db p).Nodup := by
  have h1 : ((wFilter db p).map recKey).Nodup :=
    hnd.sublist ((wFilter_sublist db p).map recKey)
  have hperm := List.perm_insertionSort wle (wFilter db p)
  have h2 : ((List.insertionSort wle (wFilter db p)).map recKey).Nodup :=
    ((hperm.map recKey).nodup_iff).mpr h1
  have h3 : ((wFullList db p).map (fun r => (r.station_id, r.date))).Nodup := by
    unfold wFullList
    rw [List.map_map]
    exact h2
  exact h3.of_map

theorem sFullList_nodup (db : List WeatherStats) (p : StatsParams)
    (hnd : (db.map statKey).Nodup) : (sFullList db p).Nodup := by
  have h1 : ((sFilter db p).map statKey).Nodup :=
    hnd.sublist ((sFilter_sublist db p).map statKey)
  have hperm := List.perm_insertionSort sle (sFilter db p)
  have h2 : ((List.insertionSort sle (sFilter db p)).map statKey).Nodup :=
    ((hperm.map statKey).nodup_iff).mpr h1
  have h3 : ((sFullList db p).map (fun r => (r.station_id, r.year))).Nodup := by
    unfold sFullList
    rw [List.map_map]
    exact h2
  exact h3.of_map

theorem cpr_total_pages_ceil (total : Nat) (sz : Int) (hsz : 1 ≤ sz) :
    ((total : Int) + sz - 1) / sz = ⌈(total : ℚ) / (sz : ℚ)⌉ := by
  rw [total_pages_int total sz hsz, totalPages_eq_ceil total sz.toNat (by omega)]
  have h2 : ((sz.toNat : Nat) : ℚ) = (sz : ℚ) := by
    exact_mod_cast congrArg (fun z : ℤ => (z : ℚ))
      (Int.toNat_of_nonneg (show (0 : ℤ) ≤ sz by omega))
  rw [h2]

/-- C7: for every filter set and fixed page size, both listing endpoints order
results by the deterministic total order — (date, station_id) for Observations
and (year, station_id) for AnnualStatistics —, every page response reports
total_records as the count of all rows matching the filters and total_pages as
the ceiling of total_records divided by the page size, and the pages
1..total_pages concatenate exactly to the full filtered, ordered,
display-converted result set, each row appearing exactly once (assuming the
stored rows satisfy the schema's uniqueness constraints, and, for the
Observation listing, that the date parameters pass validation). -/
theorem c7_pagination (db : List WeatherRecord) (sdb : List WeatherStats)
    (p : WeatherParams) (q : StatsParams)
    (hv : wParamsValid p = true)
    (hw : (db.map recKey).Nodup) (hsnd : (sdb.map statKey).Nodup) :
    (∀ n : Nat,
      weather_list_get db { p with page := some ((n : Int) + 1) } =
        .ok (create_paginated_response
          (pageSlice (wFullList db p) n (get_pagination_params p.page p.page_size).2.toNat)
          (wFullList db p).length ((n : Int) + 1)
          (get_pagination_params p.page p.page_size).2)) ∧
    (∀ (n : Nat) (r : Paged WeatherRow),
      weather_list_get db { p with page := some ((n : Int) + 1) } = .ok r →
        r.total_records = (wFullList db p).length ∧
        r.total_pages = ⌈((wFullList db p).length : ℚ) /
          ((get_pagination_params p.page p.page_size).2 : ℚ)⌉) ∧
    ((List.range (totalPagesNat (wFullList db p).length
        (get_pagination_params p.page p.page_size).2.toNat)).map
        (fun n => pageSlice (wFullList db p) n
          (get_pagination_params p.page p.page_size).2.toNat)).flatten = wFullList db p ∧
    List.Sorted wRowLe (wFullList db p) ∧
    (wFullList db p).Nodup ∧
    (∀ n : Nat,
      weather_stats_list_get sdb { q with page := some ((n : Int) + 1) } =
        create_paginated_response
          (pageSlice (sFullList sdb q) n (get_pagination_params q.page q.page_size).2.toNat)
          (sFullList sdb q).length ((n : Int) + 1)
          (get_pagination_params q.page q.page_size).2) ∧
    (∀ n : Nat,
      (weather_stats_list_get sdb { q with page := some ((n : Int) + 1) }).total_records =
          (sFullList sdb q).length ∧
        (weather_stats_list_get sdb { q with page := some ((n : Int) + 1) }).total_pages =
          ⌈((sFullList sdb q).length : ℚ) /
            ((get_pagination_params q.page q.page_size).2 : ℚ)⌉) ∧
    ((List.range (totalPagesNat (sFullList sdb q).length
        (get_pagination_params q.page q.page_size).2.toNat)).map
        (fun n => pageSlice (sFullList sdb q) n
          (get_pagination_params q.page q.page_size).2.toNat)).flatten = sFullList sdb q ∧
    List.Sorted sRowLe (sFullList sdb q) ∧
    (sFullList sdb q).Nodup := by
  have hszw := (get_pagination_params_size_bounds p.page p.page_size).1
  have hszs := (get_pagination_params_size_bounds q.page q.page_size).1
  refine ⟨fun n => weather_page_eq db p n hv, ?_, ?_, wFullList_sorted db p,
    wFullList_nodup db p hw, fun n => stats_page_eq sdb q n, ?_, ?_,
    sFullList_sorted sdb q, sFullList_nodup sdb q hsnd⟩
  · intro n r hr
    rw [weather_page_eq db p n hv] at hr
    have hre := Except.ok.inj hr
    subst hre
    exact ⟨rfl, cpr_total_pages_ceil _ _ hszw⟩
  · exact pages_cover (wFullList db p) _ (by omega)
  · intro n
    rw [stats_page_eq sdb q n]
    exact ⟨rfl, cpr_total_pages_ceil _ _ hszs⟩
  · exact pages_cover (sFullList sdb q) _ (by omega)

theorem c7_witness :
    wParamsValid wp7 = true ∧ (wdb7.map recKey).Nodup ∧ (sdb7.map statKey).Nodup ∧
    ((∀ n : Nat,
      weather_list_get wdb7 { wp7 with page := some ((n : Int) + 1) } =
        .ok (create_paginated_response
          (pageSlice (wFullList wdb7 wp7) n
            (get_pagination_params wp7.page wp7.page_size).2.toNat)
          (wFullList wdb7 wp7).length ((n : Int) + 1)
          (get_pagination_params wp7.page wp7.page_size).2)) ∧
    (∀ (n : Nat) (r : Paged WeatherRow),
      weather_list_get wdb7 { wp7 with page := some ((n : Int) + 1) } = .ok r →
        r.total_records = (wFullList wdb7 wp7).length ∧
        r.total_pages = ⌈((wFullList wdb7 wp7).length : ℚ) /
          ((get_pagination_params wp7.page wp7.page_size).2 : ℚ)⌉) ∧
    ((List.range (totalPagesNat (wFullList wdb7 wp7).length
        (get_pagination_params wp7.page wp7.page_size).2.toNat)).map
        (fun n => pageSlice (wFullList wdb7 wp7) n
          (get_pagination_params wp7.page wp7.page_size).2.toNat)).flatten =
      wFullList wdb7 wp7 ∧
    List.Sorted wRowLe (wFullList wdb7 wp7) ∧
    (wFullList wdb7 wp7).Nodup ∧
    (∀ n : Nat,
      weather_stats_list_get sdb7 { sq7 with page := some ((n : Int) + 1) } =
        create_paginated_response
          (pageSlice (sFullList sdb7 sq7) n
            (get_pagination_params sq7.page sq7.page_size).2.toNat)
          (sFullList sdb7 sq7).length ((n : Int) + 1)
          (get_pagination_params sq7.page sq7.page_size).2) ∧
    (∀ n : Nat,
      (weather_stats_list_get sdb7 { sq7 with page := some ((n : Int) + 1) }).total_records =
          (sFullList sdb7 sq7).length ∧
        (weather_stats_list_get sdb7 { sq7 with page := some ((n : Int) + 1) }).total_pages =
          ⌈((sFullList sdb7 sq7).length : ℚ) /
            ((get_pagination_params sq7.page sq7.page_size).2 : ℚ)⌉) ∧
    ((List.range (totalPagesNat (sFullList sdb7 sq7).length
        (get_pagination_params sq7.page sq7.page_size).2.toNat)).map
        (fun n => pageSlice (sFullList sdb7 sq7) n
          (get_pagination_params sq7.page sq7.page_size).2.toNat)).flatten =
      sFullList sdb7 sq7 ∧
    List.Sorted sRowLe (sFullList sdb7 sq7) ∧
    (sFullList sdb7 sq7).Nodup) :=
  ⟨by decide, by decide, by decide,
    c7_pagination wdb7 sdb7 wp7 sq7 (by decide) (by decide) (by decide)⟩
